import Mathlib

/-!
Verification development for the AeroLish METAR core
(`aerolish_final.py`, `ai_analysis.py`): a shallow embedding of
`parse_basic_tokens`, `analyze_severity`, `tokenize_metar`,
`deterministic_summary` and `recommend_operational_actions`,
together with theorems settling the specification claims.

Strings are modelled as `List Char`; the Python `re` searches are embedded
as explicit left-to-right scanners reproducing the backtracking order of the
concrete patterns appearing in the source.  Numeric weather quantities are
modelled as `Nat`/`ℚ`.  The floating-point haversine distance is treated as
an abstract parameter of the decision engine (only its structural use —
the 350 NM filter and the sort key — matters to the claims).
-/

namespace Aerolish

/-- Python `\w` (word character) for the ASCII reports handled here. -/
def wordChar (c : Char) : Bool := c.isAlphanum || c == '_'

/-- Python `\s` whitespace class (ASCII part). -/
def pySpace (c : Char) : Bool :=
  c == ' ' || c == '\t' || c == '\n' || c == '\r' || c == '\x0b' || c == '\x0c'

/-- `\b` before a word character holds iff the previous character (if any)
is not a word character. -/
def boundaryBeforeWord (prev : Option Char) : Bool :=
  match prev with
  | none => true
  | some c => !wordChar c

/-- `\b` after a word character holds iff the next character (if any) is not
a word character. -/
def boundaryAfter (rest : List Char) : Bool :=
  match rest with
  | [] => true
  | c :: _ => !wordChar c

/-- Left-to-right scan of `re.search`: try the pattern matcher at every
position (including the end position), tracking the previous character for
`\b` tests. -/
def reSearch (m : Option Char → List Char → Option α) :
    Option Char → List Char → Option α
  | prev, [] => m prev []
  | prev, c :: rest =>
    match m prev (c :: rest) with
    | some r => some r
    | none => reSearch m (some c) rest

/-- Decimal value of a digit string (Python `int` on a matched digit group). -/
def digitsToNat (l : List Char) : Nat :=
  l.foldl (fun a c => a * 10 + (c.toNat - '0'.toNat)) 0

/-- Groups of the wind pattern `\b(\d{3})(\d{2,3})(G(\d{2,3}))?KT\b`;
`gst` holds the gust digits, `[]` when the optional group is absent. -/
structure WindGroups where
  dir : List Char
  spd : List Char
  gst : List Char
deriving DecidableEq, Repr

/-- The `KT\b` tail of the wind pattern. -/
def windTailKT : List Char → Option (List Char)
  | 'K' :: 'T' :: r => if boundaryAfter r then some r else none
  | _ => none

/-- The `(G(\d{2,3}))?KT\b` tail, greedy in the gust digits, with the empty
alternative of the optional group tried last. -/
def windGustTail (dir spd : List Char) (r : List Char) :
    Option (WindGroups × List Char) :=
  (match r with
   | 'G' :: g1 :: g2 :: g3 :: r2 =>
     if g1.isDigit && g2.isDigit && g3.isDigit then
       (windTailKT r2).map (fun rr => (⟨dir, spd, [g1, g2, g3]⟩, rr))
     else none
   | _ => none)
  <|>
  (match r with
   | 'G' :: g1 :: g2 :: r2 =>
     if g1.isDigit && g2.isDigit then
       (windTailKT r2).map (fun rr => (⟨dir, spd, [g1, g2]⟩, rr))
     else none
   | _ => none)
  <|>
  (windTailKT r).map (fun rr => (⟨dir, spd, []⟩, rr))

/-- Matcher (at one position) for `\b(\d{3})(\d{2,3})(G(\d{2,3}))?KT\b`,
the wind pattern used both by `parse_basic_tokens` and `tokenize_metar`;
the speed group is greedy (three digits tried before two). -/
def windMatchAt (prev : Option Char) : List Char → Option (WindGroups × List Char)
  | d1 :: d2 :: d3 :: rest =>
    if boundaryBeforeWord prev && d1.isDigit && d2.isDigit && d3.isDigit then
      match rest with
      | s1 :: s2 :: s3 :: r =>
        (if s1.isDigit && s2.isDigit && s3.isDigit then
           windGustTail [d1, d2, d3] [s1, s2, s3] r
         else none)
        <|>
        (if s1.isDigit && s2.isDigit then
           windGustTail [d1, d2, d3] [s1, s2] (s3 :: r)
         else none)
      | s1 :: s2 :: r =>
        if s1.isDigit && s2.isDigit then
          windGustTail [d1, d2, d3] [s1, s2] r
        else none
      | _ => none
    else none
  | _ => none

/-- First match of the wind pattern in a raw report. -/
def searchWind (s : List Char) : Option WindGroups :=
  (reSearch windMatchAt none s).map Prod.fst

/-- Matcher for `\b(BKN|OVC)(\d{3})\b` returning the ceiling in feet
(`int(group(2)) * 100`), as used by `parse_basic_tokens`. -/
def bknOvcMatchAt (prev : Option Char) : List Char → Option (Nat × List Char)
  | c1 :: c2 :: c3 :: d1 :: d2 :: d3 :: rest =>
    if boundaryBeforeWord prev &&
        (([c1, c2, c3] == ['B', 'K', 'N']) || ([c1, c2, c3] == ['O', 'V', 'C'])) &&
        d1.isDigit && d2.isDigit && d3.isDigit && boundaryAfter rest then
      some (digitsToNat [d1, d2, d3] * 100, rest)
    else none
  | _ => none

/-- The `SM\b` tail of the visibility patterns. -/
def smTail : List Char → Option (List Char)
  | 'S' :: 'M' :: r => if boundaryAfter r then some r else none
  | _ => none

/-- The `(?:\s+\d/\d|\d/\d)?SM\b` tail of the `parse_basic_tokens`
visibility pattern; returns the characters the optional part contributes to
group 1, alternatives in the pattern's order (the empty one last). -/
def visOptTailPBT (r : List Char) : Option (List Char × List Char) :=
  (let ws := r.takeWhile pySpace
   let r1 := r.dropWhile pySpace
   if ws.isEmpty then none else
   match r1 with
   | n :: '/' :: d :: r2 =>
     if n.isDigit && d.isDigit then
       (smTail r2).map (fun rr => (ws ++ [n, '/', d], rr))
     else none
   | _ => none)
  <|>
  (match r with
   | n :: '/' :: d :: r2 =>
     if n.isDigit && d.isDigit then
       (smTail r2).map (fun rr => ([n, '/', d], rr))
     else none
   | _ => none)
  <|>
  (smTail r).map (fun rr => (([] : List Char), rr))

/-- Matcher for `\b(\d{1,2}(?:\s+\d/\d|\d/\d)?)SM\b` returning group 1
(the digit part is greedy: two digits tried before one). -/
def visMatchAtPBT (prev : Option Char) : List Char → Option (List Char × List Char)
  | d1 :: d2 :: rest =>
    if boundaryBeforeWord prev && d1.isDigit then
      (if d2.isDigit then
         (visOptTailPBT rest).map (fun p => ([d1, d2] ++ p.1, p.2))
       else none)
      <|>
      (visOptTailPBT (d2 :: rest)).map (fun p => ([d1] ++ p.1, p.2))
    else none
  | [d1] =>
    if boundaryBeforeWord prev && d1.isDigit then
      (visOptTailPBT []).map (fun p => ([d1] ++ p.1, p.2))
    else none
  | _ => none

/-- The visibility value computation of `parse_basic_tokens`:
`v.replace(" ", "")`, then `float(num)/float(den)` on a fraction or
`float(v)` on a whole number, every failure (including a zero denominator)
being swallowed by the surrounding `try/except`.  The exact rational value
is used in place of the Python float. -/
def visValue (v : List Char) : Option ℚ :=
  let w := v.filter (fun c => c != ' ')
  if w.contains '/' then
    let num := w.takeWhile (fun c => c != '/')
    let den := (w.dropWhile (fun c => c != '/')).drop 1
    if den.contains '/' then none
    else if (!num.isEmpty) && num.all Char.isDigit &&
            (!den.isEmpty) && den.all Char.isDigit then
      if digitsToNat den == 0 then none
      else some (mkRat (digitsToNat num) (digitsToNat den))
    else none
  else
    if (!w.isEmpty) && w.all Char.isDigit then some (mkRat (digitsToNat w) 1)
    else none

/-- The token record built by `parse_basic_tokens`. -/
structure BasicTokens where
  vis_sm : Option ℚ
  ceil_ft : Option Nat
  gust : Option Nat
  wind : Option (List Char × Nat)
deriving DecidableEq, Repr

/-- `parse_basic_tokens` from `aerolish_final.py`: minimal extraction of
visibility (first `SM` group), ceiling (first `BKN`/`OVC` group, base × 100)
and wind/gust (first wind group) for the operational decision engine. -/
def parse_basic_tokens (raw : List Char) : BasicTokens :=
  let vis := (reSearch visMatchAtPBT none raw).bind (fun p => visValue p.1)
  let ceil := (reSearch bknOvcMatchAt none raw).map Prod.fst
  let w := searchWind raw
  let wind := w.map (fun g => (g.dir, digitsToNat g.spd))
  let gust := w.bind (fun g => if g.gst.isEmpty then none else some (digitsToNat g.gst))
  ⟨vis, ceil, gust, wind⟩

/-- Python `sub in s` substring containment. -/
def pyIn (sub s : List Char) : Bool :=
  match s with
  | [] => sub.isEmpty
  | _ :: tail => sub.isPrefixOf s || pyIn sub tail

/-- `severe_indicators` of `analyze_severity`. -/
def severeIndicators : List (List Char) :=
  ["TS".data, "+TS".data, "TSRA".data, "CB".data, "FC".data, "+GR".data,
   "VA".data, "SQ".data]

/-- Precipitation indicators of `analyze_severity`. -/
def precipIndicators : List (List Char) :=
  ["RA".data, "+RA".data, "-RA".data, "SN".data, "+SN".data, "-SN".data,
   "DZ".data, "SHRA".data, "SHSN".data]

/-- Visibility-reducing indicators of `analyze_severity`. -/
def visReducers : List (List Char) := ["BR".data, "FG".data, "HZ".data]

/-- The low-cloud scan `re.search(r'(BKN|OVC)(00\d|01\d|02\d)', text)` of
`analyze_severity` (plain substring scan, no word boundaries). -/
def lowCloudScan : List Char → Bool
  | c1 :: c2 :: c3 :: d1 :: d2 :: d3 :: rest =>
    ((([c1, c2, c3] == ['B', 'K', 'N']) || ([c1, c2, c3] == ['O', 'V', 'C'])) &&
      d1 == '0' && (d2 == '0' || d2 == '1' || d2 == '2') && d3.isDigit)
    || lowCloudScan (c2 :: c3 :: d1 :: d2 :: d3 :: rest)
  | _ => false

/-- Python `str.upper` (ASCII). -/
def pyUpper (s : List Char) : List Char := s.map Char.toUpper

/-- `analyze_severity` from `aerolish_final.py` (the spec's
`classify_severity`).  `None` and the empty string are falsy,
yielding `UNKNOWN`. -/
def analyze_severity (metar_text : Option String) : String :=
  match metar_text with
  | none => "UNKNOWN"
  | some raw =>
    if raw.data.isEmpty then "UNKNOWN"
    else
      let text := pyUpper raw.data
      if severeIndicators.any (fun i => pyIn i text) then "SEVERE"
      else
        let score :=
          (if precipIndicators.any (fun i => pyIn i text) then 1 else 0) +
          (if visReducers.any (fun i => pyIn i text) then 1 else 0) +
          (if lowCloudScan text then 1 else 0)
        if 1 ≤ score then "MODERATE" else "CLEAR"

/-! ### `tokenize_metar` (`ai_analysis.py`) -/

/-- Python `str.strip()` (ASCII whitespace). -/
def pyStrip (s : List Char) : List Char :=
  ((s.dropWhile pySpace).reverse.dropWhile pySpace).reverse

/-- Matcher for the `tokenize_metar` visibility tail
`(?:/\d{1,2})?SM\b` (denominator greedy, empty alternative last);
returns the characters contributed to the group. -/
def visTokOptFrac (r : List Char) : Option (List Char × List Char) :=
  (match r with
   | '/' :: e1 :: e2 :: r2 =>
     if e1.isDigit && e2.isDigit then
       (smTail r2).map (fun rr => (['/', e1, e2], rr))
     else none
   | _ => none)
  <|>
  (match r with
   | '/' :: e1 :: r2 =>
     if e1.isDigit then (smTail r2).map (fun rr => (['/', e1], rr)) else none
   | _ => none)
  <|>
  (smTail r).map (fun rr => (([] : List Char), rr))

/-- Matcher for `\b(\d{1,2}(?:/\d{1,2})?SM)\b` (group 1 includes `SM`). -/
def visTokMatchAt (prev : Option Char) : List Char → Option (List Char × List Char)
  | d1 :: d2 :: rest =>
    if boundaryBeforeWord prev && d1.isDigit then
      (if d2.isDigit then
         (visTokOptFrac rest).map (fun p => ([d1, d2] ++ p.1 ++ "SM".data, p.2))
       else none)
      <|>
      (visTokOptFrac (d2 :: rest)).map (fun p => ([d1] ++ p.1 ++ "SM".data, p.2))
    else none
  | [d1] =>
    if boundaryBeforeWord prev && d1.isDigit then
      (visTokOptFrac []).map (fun p => ([d1] ++ p.1 ++ "SM".data, p.2))
    else none
  | _ => none

/-- The two-letter weather codes of `WX_CODES`, in the pattern's order. -/
def wxCodes : List (List Char) :=
  ["TS".data, "DZ".data, "RA".data, "SN".data, "SG".data, "PL".data,
   "GR".data, "GS".data, "UP".data, "BR".data, "FG".data, "FU".data,
   "HZ".data, "DU".data, "SA".data, "SQ".data, "PO".data, "DS".data,
   "SS".data, "VA".data]

/-- Code alternation of the weather pattern followed by `\b` (all codes are
two distinct letters, so alternation order does not matter). -/
def wxCode (r : List Char) : Option (List Char × List Char) :=
  match r with
  | a :: b :: rest =>
    match wxCodes.find? (fun code => code == [a, b]) with
    | some code => if boundaryAfter rest then some (code, rest) else none
    | none => none
  | _ => none

/-- `(VC)?CODE\b` with the `VC` alternative tried first. -/
def wxAfterSign (sign : List Char) (r : List Char) : Option (List Char × List Char) :=
  (match r with
   | 'V' :: 'C' :: r2 =>
     (wxCode r2).map (fun p => (sign ++ "VC".data ++ p.1, p.2))
   | _ => none)
  <|>
  (wxCode r).map (fun p => (sign ++ p.1, p.2))

/-- Matcher for one weather group `\s(\+|-)?(VC)?CODE\b` of
`re.findall`; the result is the joined groups (`"".join(g)`, whose
`strip()` is the identity since no group contains whitespace). -/
def tryWxAt : List Char → Option (List Char × List Char)
  | c :: r =>
    if pySpace c then
      (match r with
       | '+' :: r1 => wxAfterSign ['+'] r1
       | _ => none)
      <|>
      (match r with
       | '-' :: r1 => wxAfterSign ['-'] r1
       | _ => none)
      <|>
      wxAfterSign [] r
    else none
  | [] => none

/-- `re.findall` loop for the weather pattern: scan left to right, resuming
after each match (non-overlapping).  Every step consumes at least one
character, so fuel `s.length + 1` never runs out. -/
def wxScanFuel : Nat → List Char → List (List Char)
  | 0, _ => []
  | fuel + 1, s =>
    match tryWxAt s with
    | some (g, rest) => g :: wxScanFuel fuel rest
    | none =>
      match s with
      | [] => []
      | _ :: cs => wxScanFuel fuel cs

/-- Cloud coverage codes of `CLOUD_CODES`. -/
def cloudCodes : List (List Char) :=
  ["FEW".data, "SCT".data, "BKN".data, "OVC".data]

/-- Matcher for one cloud group `\b(FEW|SCT|BKN|OVC)(\d{3})\b` of
`re.finditer`; also returns the last matched character (for the `\b`
state of the continued scan). -/
def tryCloudAt (prev : Option Char) : List Char →
    Option ((List Char × List Char) × Char × List Char)
  | c1 :: c2 :: c3 :: d1 :: d2 :: d3 :: rest =>
    match cloudCodes.find? (fun code => code == [c1, c2, c3]) with
    | some code =>
      if boundaryBeforeWord prev && d1.isDigit && d2.isDigit && d3.isDigit &&
          boundaryAfter rest then
        some ((code, [d1, d2, d3]), d3, rest)
      else none
    | none => none
  | _ => none

/-- `re.finditer` loop for the cloud pattern (non-overlapping, left to
right), with fuel as in `wxScanFuel`. -/
def cloudScanFuel : Nat → Option Char → List Char → List (List Char × List Char)
  | 0, _, _ => []
  | fuel + 1, prev, s =>
    match tryCloudAt prev s with
    | some (g, lastc, rest) => g :: cloudScanFuel fuel (some lastc) rest
    | none =>
      match s with
      | [] => []
      | c :: cs => cloudScanFuel fuel (some c) cs

/-- Matcher for `\bVV(\d{3})\b`, value `int(group(1)) * 100`. -/
def vvMatchAt (prev : Option Char) : List Char → Option (Nat × List Char)
  | 'V' :: 'V' :: d1 :: d2 :: d3 :: rest =>
    if boundaryBeforeWord prev && d1.isDigit && d2.isDigit && d3.isDigit &&
        boundaryAfter rest then
      some (digitsToNat [d1, d2, d3] * 100, rest)
    else none
  | _ => none

/-- `M?\d{2}` with the `M` alternative tried first (backtracking to the
bare digits cannot succeed when `M` is present, since `M` is not a digit). -/
def mNumTwo (r : List Char) : Option (List Char × List Char) :=
  (match r with
   | 'M' :: d1 :: d2 :: rr =>
     if d1.isDigit && d2.isDigit then some (['M', d1, d2], rr) else none
   | _ => none)
  <|>
  (match r with
   | d1 :: d2 :: rr =>
     if d1.isDigit && d2.isDigit then some ([d1, d2], rr) else none
   | _ => none)

/-- Matcher for the temperature group `\s(M?\d{2})/(M?\d{2})(\s|$)`. -/
def tdMatchAt (_ : Option Char) : List Char → Option ((List Char × List Char) × List Char)
  | c :: r =>
    if pySpace c then
      match mNumTwo r with
      | some (g1, r1) =>
        match r1 with
        | '/' :: r2 =>
          match mNumTwo r2 with
          | some (g2, r3) =>
            match r3 with
            | [] => some ((g1, g2), r3)
            | c2 :: _ => if pySpace c2 then some ((g1, g2), r3) else none
          | none => none
        | _ => none
      | none => none
    else none
  | [] => none

/-- The sign conversion `("-" + x[1:]) if x.startswith("M") else x`. -/
def tdConv : List Char → List Char
  | 'M' :: rest => '-' :: rest
  | x => x

/-- Matcher for the altimeter `\bA(\d{4})\b`, rendered
`f"{alt[:2]}.{alt[2:]} inHg"`. -/
def altMatchAt (prev : Option Char) : List Char → Option (List Char × List Char)
  | 'A' :: d1 :: d2 :: d3 :: d4 :: rest =>
    if boundaryBeforeWord prev && d1.isDigit && d2.isDigit && d3.isDigit &&
        d4.isDigit && boundaryAfter rest then
      some ([d1, d2] ++ '.' :: [d3, d4] ++ " inHg".data, rest)
    else none
  | _ => none

/-- The token record of `tokenize_metar`; every field is present, defaulting
to `none`/`[]`.  `wind` reuses `WindGroups` (its `gst` is the gust digits,
`[]` when absent, exactly `(m.group(3) or "").lstrip("G")`). -/
structure MetarTokens where
  wind : Option WindGroups
  vis : Option (List Char)
  wx : List (List Char)
  clouds : List (List Char × List Char)
  vv : Option Nat
  temp : Option (List Char)
  dew : Option (List Char)
  alt : Option (List Char)
deriving DecidableEq, Repr

/-- `tokenize_metar` from `ai_analysis.py`: total tokenizer over
`s = (raw or "").strip()`. -/
def tokenize_metar (raw : Option String) : MetarTokens :=
  let s := pyStrip ((raw.getD "").data)
  let td := reSearch tdMatchAt none s
  { wind := searchWind s
    vis := (reSearch visTokMatchAt none s).map Prod.fst
    wx := wxScanFuel (s.length + 1) s
    clouds := cloudScanFuel (s.length + 1) none s
    vv := (reSearch vvMatchAt none s).map Prod.fst
    temp := td.map (fun p => tdConv p.1.1)
    dew := td.map (fun p => tdConv p.1.2)
    alt := (reSearch altMatchAt none s).map Prod.fst }

/-! ### `deterministic_summary` (`ai_analysis.py`) -/

/-- Fuel-driven loop of the decimal rendering; `n + 1` units of fuel always
suffice (each step divides `n` by ten). -/
def natDecimalAux : Nat → Nat → List Char → List Char
  | 0, _, acc => acc
  | fuel + 1, n, acc =>
    if n < 10 then Nat.digitChar n :: acc
    else natDecimalAux fuel (n / 10) (Nat.digitChar (n % 10) :: acc)

/-- Decimal rendering of a natural number (Python `f"{n}"`). -/
def natDecimal (n : Nat) : List Char := natDecimalAux (n + 1) n []

/-- Python `min` over a non-empty list. -/
def pyMin : List Nat → Option Nat
  | [] => none
  | x :: xs => some (xs.foldl min x)

/-- The low-visibility strings of the IFR hint. -/
def lowVisList : List (List Char) :=
  ["1/4SM".data, "1/2SM".data, "3/4SM".data, "1SM".data, "2SM".data]

/-- `". ".join(parts)`. -/
def joinSep (sep : List Char) : List (List Char) → List Char
  | [] => []
  | [p] => p
  | p :: q :: ps => p ++ sep ++ joinSep sep (q :: ps)

/-- The ceiling derivation of `deterministic_summary`: start from `vv`;
when that is falsy (`None` or `0`) and cloud layers exist, replace it by
the minimum BKN/OVC base (or `None` when there is none). -/
def summaryCeil (t : MetarTokens) : Option Nat :=
  let ceil0 := t.vv
  let falsy0 : Bool := match ceil0 with | none => true | some n => n == 0
  if falsy0 && !t.clouds.isEmpty then
    pyMin ((t.clouds.filter
      (fun p => p.1 == "BKN".data || p.1 == "OVC".data)).map
        (fun p => digitsToNat p.2 * 100))
  else ceil0

/-- Truthiness of an optional string token (`None` and `""` are falsy). -/
def optStrTruthy : Option (List Char) → Bool
  | none => false
  | some v => !v.isEmpty

/-- The Clouds clause (all layers, base × 100 ft each, comma-joined). -/
def cloudsClause (t : MetarTokens) : List (List Char) :=
  if !t.clouds.isEmpty then
    ["Clouds ".data ++ joinSep ", ".data
      (t.clouds.map
        (fun p => p.1 ++ [' '] ++ natDecimal (digitsToNat p.2 * 100) ++ " ft".data))]
  else []

/-- The clause list of `deterministic_summary`, in source order. -/
def summaryParts (t : MetarTokens) : List (List Char) :=
  let ceil := summaryCeil t
  let ifr : Bool :=
    (match t.vis with
     | some v => lowVisList.contains v
     | none => false) ||
    (match ceil with
     | some c => c < 1000
     | none => false)
  (if ifr then ["IFR conditions".data] else []) ++
  (if optStrTruthy t.vis then ["Visibility ".data ++ t.vis.getD []] else []) ++
  (match ceil with
   | some c =>
     if c != 0 then ["Ceiling ".data ++ natDecimal c ++ " ft".data]
     else cloudsClause t
   | none => cloudsClause t) ++
  (match t.wind with
   | some w =>
     ["Winds ".data ++ w.dir ++ "° at ".data ++ w.spd ++ " kt".data ++
      (if !w.gst.isEmpty then ", gusting ".data ++ w.gst ++ " kt".data else [])]
   | none => []) ++
  (if !t.wx.isEmpty then ["Weather ".data ++ joinSep ", ".data t.wx] else []) ++
  (if optStrTruthy t.temp && optStrTruthy t.dew then
     ["Temp ".data ++ t.temp.getD [] ++ "°C, dew ".data ++ t.dew.getD [] ++ "°C".data]
   else []) ++
  (if optStrTruthy t.alt then ["Altimeter ".data ++ t.alt.getD []] else [])

/-- `deterministic_summary` from `ai_analysis.py`. -/
def deterministic_summary (t : MetarTokens) : List Char :=
  joinSep ". ".data (summaryParts t) ++ ['.']

example : tokenize_metar (some "KTUS 261152Z 09015G25KT 10SM TS SCT030 BKN060 CB100 28/22 A2992") =
    { wind := some ⟨"090".data, "15".data, "25".data⟩
      vis := some "10SM".data
      wx := ["TS".data]
      clouds := [("SCT".data, "030".data), ("BKN".data, "060".data)]
      vv := none
      temp := some "28".data
      dew := some "22".data
      alt := some "29.92 inHg".data } := by decide

example : tokenize_metar (some "KXXX 271012Z 27015G25KT 1/2SM -RA BR VV004 M05/M07 A2992") =
    { wind := some ⟨"270".data, "15".data, "25".data⟩
      vis := some "1/2SM".data
      wx := ["-RA".data, "BR".data]
      clouds := []
      vv := some 400
      temp := some "-05".data
      dew := some "-07".data
      alt := some "29.92 inHg".data } := by decide

example : deterministic_summary (tokenize_metar (some "KTUS 261152Z 09015G25KT 10SM TS SCT030 BKN060 CB100 28/22 A2992")) =
    "Visibility 10SM. Ceiling 6000 ft. Winds 090° at 15 kt, gusting 25 kt. Weather TS. Temp 28°C, dew 22°C. Altimeter 29.92 inHg.".data := by decide

/-! ### `recommend_operational_actions` (`aerolish_final.py`)

The haversine distance (floating-point trigonometry in the source) is taken
as an abstract parameter `dist`; every claim about the engine concerns the
350 NM filter, the sort key and the record structure, which are independent
of the numeric distance function. -/

/-- The airport-info fields the engine reads (`info["name"]`,
`info.get("latitude")`, `info.get("longitude")`). -/
structure AirportInfo where
  name : String
  latitude : Option ℚ
  longitude : Option ℚ
deriving DecidableEq, Repr

/-- One route member: `{code, info, current_weather.parsed.severity}`. -/
structure RouteLeg where
  code : String
  info : AirportInfo
  severity : String
deriving DecidableEq, Repr

/-- One alternate candidate record. -/
structure Candidate where
  code : String
  name : String
  severity : String
  distance_nm : ℚ
deriving DecidableEq, Repr

/-- The output record of `recommend_operational_actions`. -/
structure Decision where
  active : Bool
  reason : String
  risk_alerts : List String
  delay_advisory : Option String
  alternate_candidates : List Candidate
  detour_suggestions : List String
deriving DecidableEq, Repr

/-- The initial (inactive) output record. -/
def inactiveDecision : Decision :=
  { active := false, reason := "", risk_alerts := [], delay_advisory := none,
    alternate_candidates := [], detour_suggestions := [] }

/-- Python truthiness of an optional number (`None` and `0.0` are falsy). -/
def optQTruthy : Option ℚ → Bool
  | none => false
  | some q => !(q == 0)

/-- Nearest integer to `n / d` (for `0 < d`) with ties to even — the
rounding of Python `round` and of `format`. -/
def roundTiesEven (n d : Int) : Int :=
  let f := n.ediv d
  let r := n.emod d
  if 2 * r < d then f
  else if d < 2 * r then f + 1
  else if f % 2 == 0 then f else f + 1

/-- `round(q, 1)` on the exact rational value. -/
def round1 (q : ℚ) : ℚ := mkRat (roundTiesEven (q.num * 10) (q.den : Int)) 10

/-- `f"{q:.1f}"` for the non-negative rationals this code formats. -/
def pythonFmt1 (q : ℚ) : List Char :=
  let n := (roundTiesEven (q.num * 10) (q.den : Int)).toNat
  natDecimal (n / 10) ++ '.' :: natDecimal (n % 10)

/-- The soft activation trigger of the engine, computed on the
`parse_basic_tokens` record:
`(vis_sm ≤ 3.0) or (ceil_ft < 1000) or (gust ≥ 30)`, each conjunct guarded
by a `None` test. -/
def softTrigger (t : BasicTokens) : Bool :=
  (match t.vis_sm with
   | some v => decide (v ≤ (3 : ℚ))
   | none => false) ||
  (match t.ceil_ft with
   | some c => decide (c < 1000)
   | none => false) ||
  (match t.gust with
   | some g => decide (30 ≤ g)
   | none => false)

/-- The risk alerts, in source order (visibility, ceiling, gusts). -/
def riskAlerts (t : BasicTokens) : List String :=
  (match t.vis_sm with
   | some v =>
     if v ≤ (1 : ℚ) then
       ["Low visibility " ++ String.mk (pythonFmt1 v) ++
        "SM — IFR, CAT II/III may be required."]
     else []
   | none => []) ++
  (match t.ceil_ft with
   | some c =>
     if c < 1000 then
       ["Low ceiling " ++ String.mk (natDecimal c) ++
        " ft — approach minima constraints."]
     else []
   | none => []) ++
  (match t.gust with
   | some g =>
     if 30 ≤ g then
       ["Gusts " ++ String.mk (natDecimal g) ++
        " kt — crosswind/turbulence considerations."]
     else []
   | none => [])

/-- The comparator of `candidates.sort(key=lambda x: (x["severity"] != "CLEAR",
x["distance_nm"]))`: lexicographic on the boolean key then the distance. -/
def candLE (a b : Candidate) : Bool :=
  if (a.severity != "CLEAR") == (b.severity != "CLEAR") then
    decide (a.distance_nm ≤ b.distance_nm)
  else (b.severity != "CLEAR")

/-- The fixed detour suggestion text. -/
def detourMsg : String :=
  "Re-sequence to bypass SEVERE airports; plan fuel for extended routing and consider intermediate CLEAR/MODERATE stops."

/-- The fixed delay advisory text. -/
def delayMsg : String :=
  "High disruption risk along the route; consider a ground delay window and monitor AWC convective outlooks/GAIRMETs."

/-- The candidate record built for a qualifying route member. -/
def mkCandidate (dist : ℚ → ℚ → ℚ → ℚ → ℚ) (lat0 lon0 : ℚ) (ap : RouteLeg) : Candidate :=
  { code := ap.code, name := ap.info.name, severity := ap.severity,
    distance_nm := round1 (dist lat0 lon0 (ap.info.latitude.getD 0) (ap.info.longitude.getD 0)) }

/-- The per-member candidate filter of the alternates loop: valid (truthy)
coordinates, severity ≠ SEVERE, distance ≤ 350 NM. -/
def candidateOf (dist : ℚ → ℚ → ℚ → ℚ → ℚ) (lat0 lon0 : ℚ) (ap : RouteLeg) :
    Option Candidate :=
  if !(optQTruthy ap.info.latitude && optQTruthy ap.info.longitude) then none
  else if ap.severity == "SEVERE" then none
  else
    if dist lat0 lon0 (ap.info.latitude.getD 0) (ap.info.longitude.getD 0) ≤ (350 : ℚ) then
      some (mkCandidate dist lat0 lon0 ap)
    else none

/-- Python truthiness of the route argument (`if all_airports_in_route`):
falsy for `None` and for the empty list. -/
def routeTruthy (route : Option (List RouteLeg)) : Bool :=
  route.isSome && !(route.getD []).isEmpty

/-- The alternates shortlist of the active branch: when the route is truthy
and the primary has truthy coordinates, filter the route members through
`candidateOf`, sort stably by `(severity != "CLEAR", distance_nm)`
(`insertionSort` models the stable `list.sort`) and keep the first five. -/
def activeAlternates (dist : ℚ → ℚ → ℚ → ℚ → ℚ) (primary : AirportInfo)
    (route : Option (List RouteLeg)) : List Candidate :=
  if routeTruthy route && optQTruthy primary.latitude && optQTruthy primary.longitude then
    (((route.getD []).filterMap
        (candidateOf dist (primary.latitude.getD 0) (primary.longitude.getD 0))).insertionSort
      (fun a b => candLE a b = true)).take 5
  else []

/-- The decision record of the active branch of
`recommend_operational_actions`. -/
def activeDecision (dist : ℚ → ℚ → ℚ → ℚ → ℚ) (primary : AirportInfo)
    (raw : String) (severity : String) (route : Option (List RouteLeg)) : Decision :=
  let tokens := parse_basic_tokens raw.data
  let legs := route.getD []
  { active := true
    reason := if severity == "SEVERE" then "SEVERE conditions"
              else "Marginal visibility/ceiling or strong gusts"
    risk_alerts := riskAlerts tokens
    delay_advisory :=
      if routeTruthy route then
        if max 2 (legs.length / 2) ≤
            legs.countP (fun ap => ap.severity == "MODERATE" || ap.severity == "SEVERE") then
          some delayMsg
        else none
      else none
    alternate_candidates := activeAlternates dist primary route
    detour_suggestions :=
      if routeTruthy route && legs.any (fun ap => ap.severity == "SEVERE") then [detourMsg]
      else [] }

/-- `recommend_operational_actions` from `aerolish_final.py`, in
state-passing form: the route list is threaded through and returned, so that
the frame property (the engine never mutates its route argument) is the
statement that the second component equals the input. -/
def recommendFull (dist : ℚ → ℚ → ℚ → ℚ → ℚ) (primary : AirportInfo)
    (metar_text : Option String) (severity : String)
    (route : Option (List RouteLeg)) : Decision × Option (List RouteLeg) :=
  match metar_text with
  | none => (inactiveDecision, route)
  | some raw =>
    if raw.data.isEmpty then (inactiveDecision, route)
    else
      if !((severity == "SEVERE") || softTrigger (parse_basic_tokens raw.data)) then
        (inactiveDecision, route)
      else (activeDecision dist primary raw severity route, route)

/-- The returned decision record alone. -/
def recommend_operational_actions (dist : ℚ → ℚ → ℚ → ℚ → ℚ)
    (primary : AirportInfo) (metar_text : Option String) (severity : String)
    (route : Option (List RouteLeg)) : Decision :=
  (recommendFull dist primary metar_text severity route).1

/-- A degenerate distance function for concrete scenarios without routes. -/
def zeroDist : ℚ → ℚ → ℚ → ℚ → ℚ := fun _ _ _ _ => 0

/-- The KTUS airport record of the end-to-end scenario. -/
def ktusInfo : AirportInfo :=
  { name := "Tucson International Airport",
    latitude := some (mkRat 321161 10000),
    longitude := some (mkRat (-1109410) 10000) }

/-- The raw METAR of the end-to-end scenario. -/
def ktusRaw : String := "KTUS 261152Z 09015G25KT 10SM TS SCT030 BKN060 CB100 28/22 A2992"

example :
    recommend_operational_actions zeroDist ktusInfo (some ktusRaw) "SEVERE" none =
      { active := true, reason := "SEVERE conditions", risk_alerts := [],
        delay_advisory := none, alternate_candidates := [],
        detour_suggestions := [] } := by decide

example :
    recommend_operational_actions zeroDist ktusInfo (some "") "SEVERE" none =
      inactiveDecision := by decide

example :
    recommend_operational_actions zeroDist ktusInfo
      (some "KXXX 0SM FG OVC002 00000KT") "CLEAR" none =
      { active := true, reason := "Marginal visibility/ceiling or strong gusts",
        risk_alerts := ["Low visibility 0.0SM — IFR, CAT II/III may be required.",
                        "Low ceiling 200 ft — approach minima constraints."],
        delay_advisory := none, alternate_candidates := [],
        detour_suggestions := [] } := by decide

/-- A distance function for concrete scenarios: the destination latitude is
read off as the distance (avoids rational arithmetic in examples). -/
def latDist : ℚ → ℚ → ℚ → ℚ → ℚ := fun _ _ la _ => la

example :
    recommend_operational_actions latDist
      { name := "P", latitude := some 1, longitude := some 1 }
      (some "KXXX 1SM FG") "CLEAR"
      (some
        [ { code := "AAA", info := { name := "A", latitude := some 300, longitude := some 1 }, severity := "MODERATE" },
          { code := "BBB", info := { name := "B", latitude := some 100, longitude := some 1 }, severity := "CLEAR" },
          { code := "CCC", info := { name := "C", latitude := some 200, longitude := some 1 }, severity := "MODERATE" },
          { code := "DDD", info := { name := "D", latitude := some 400, longitude := some 1 }, severity := "CLEAR" },
          { code := "EEE", info := { name := "E", latitude := some 50, longitude := some 1 }, severity := "SEVERE" },
          { code := "FFF", info := { name := "F", latitude := some 0, longitude := some 1 }, severity := "CLEAR" } ]) =
      { active := true, reason := "Marginal visibility/ceiling or strong gusts",
        risk_alerts := ["Low visibility 1.0SM — IFR, CAT II/III may be required."],
        delay_advisory := some delayMsg,
        alternate_candidates :=
          [ { code := "BBB", name := "B", severity := "CLEAR", distance_nm := 100 },
            { code := "CCC", name := "C", severity := "MODERATE", distance_nm := 200 },
            { code := "AAA", name := "A", severity := "MODERATE", distance_nm := 300 } ],
        detour_suggestions := [detourMsg] } := by decide

example : analyze_severity (some "") = "UNKNOWN" := by decide
example : analyze_severity (some "KXXX 251200Z 10008KT 10SM CLR 25/10 A3000") = "CLEAR" := by decide
example : analyze_severity (some "KTUS 261152Z 09015G25KT 10SM TS SCT030 BKN060 CB100 28/22 A2992") = "SEVERE" := by decide
example : analyze_severity (some "KLAX 6SM BR -RA FEW015") = "MODERATE" := by decide
example : parse_basic_tokens "KTUS 261152Z 09015G25KT 10SM TS SCT030 BKN060 CB100 28/22 A2992".data =
    ⟨some 10, some 6000, some 25, some ("090".data, 15)⟩ := by decide
example : parse_basic_tokens "KXXX 1 1/2SM OVC050 BKN005".data =
    ⟨some (mkRat 11 2), some 5000, none, none⟩ := by decide
example : parse_basic_tokens "KXXX 3/4SM VV004 VRB06KT".data =
    ⟨some (mkRat 4 1), none, none, none⟩ := by decide

/-! ## Claim-side definitions and theorems -/

/-- Python falsiness of the raw-METAR argument (`not metar_text`):
`None` or the empty string. -/
def rawFalsy (m : Option String) : Bool :=
  match m with
  | none => true
  | some s => s.data.isEmpty

/-- The soft trigger as a function of the optional raw text. -/
def softOf (m : Option String) : Bool :=
  match m with
  | none => false
  | some s => softTrigger (parse_basic_tokens s.data)

/-- C8: `recommend_operational_actions` returns the all-empty inactive
record (`active = false`, empty reason, no alerts, no delay advisory, no
alternates, no detours) whenever the raw METAR text is falsy (`None` or
empty) or neither the hard trigger (severity SEVERE) nor the soft trigger
holds. -/
theorem C8_inactive_when_no_trigger (dist : ℚ → ℚ → ℚ → ℚ → ℚ)
    (primary : AirportInfo) (metar : Option String) (severity : String)
    (route : Option (List RouteLeg))
    (h : rawFalsy metar = true ∨ (severity ≠ "SEVERE" ∧ softOf metar = false)) :
    recommend_operational_actions dist primary metar severity route = inactiveDecision := by
  cases metar with
  | none => rfl
  | some raw =>
    rcases h with h | ⟨hsev, hsoft⟩
    · simp only [rawFalsy] at h
      simp [recommend_operational_actions, recommendFull, h]
    · simp only [softOf] at hsoft
      have hbeq : (severity == "SEVERE") = false := by
        simpa using hsev
      by_cases he : raw.data.isEmpty
      · simp [recommend_operational_actions, recommendFull, he]
      · simp [recommend_operational_actions, recommendFull, he, hbeq, hsoft]

/-- Witness for C8: the empty raw METAR yields the inactive record. -/
theorem C8_witness :
    rawFalsy (some "") = true ∧
      recommend_operational_actions zeroDist ktusInfo (some "") "SEVERE" none =
        inactiveDecision :=
  ⟨by decide,
   C8_inactive_when_no_trigger zeroDist ktusInfo (some "") "SEVERE" none
     (Or.inl (by decide))⟩

/-- C9: the engine never mutates its route argument — in the state-passing
embedding `recommendFull`, the route component of the result is the input
route, for every call. -/
theorem C9_route_unchanged (dist : ℚ → ℚ → ℚ → ℚ → ℚ)
    (primary : AirportInfo) (metar : Option String) (severity : String)
    (route : Option (List RouteLeg)) :
    (recommendFull dist primary metar severity route).2 = route := by
  cases metar with
  | none => rfl
  | some raw =>
    dsimp only [recommendFull]
    split
    · rfl
    · split <;> rfl

/-- Counterexample for C2: on the end-to-end KTUS scenario the gust is
25 kt, below the 30 kt alert threshold, so the claimed gust alert is not in
`risk_alerts` (which is empty). -/
theorem C2_counterexample :
    "Gusts 25 kt — crosswind/turbulence considerations." ∉
      (recommend_operational_actions zeroDist ktusInfo (some ktusRaw) "SEVERE"
        none).risk_alerts := by decide

/-- C2 (amended): on the end-to-end KTUS scenario (severity SEVERE) the
engine returns `active = true`, reason `"SEVERE conditions"`, and an empty
`risk_alerts` list — in particular no visibility alert, no ceiling alert and
no gust alert (the gust alert requires ≥ 30 kt but the gust is 25 kt). -/
theorem C2_amended_ktus_scenario :
    recommend_operational_actions zeroDist ktusInfo (some ktusRaw) "SEVERE" none =
      { active := true, reason := "SEVERE conditions", risk_alerts := [],
        delay_advisory := none, alternate_candidates := [],
        detour_suggestions := [] } := by decide

/-- Counterexample for C6: a `VRB` wind group is not matched by the wind
pattern of `tokenize_metar` (which requires three digits), so the claimed
`direction = "VRB"` is impossible — the wind token is `None`. -/
theorem C6_counterexample :
    (tokenize_metar (some "KXXX 261152Z VRB06KT 10SM")).wind = none := by decide

/-- C6 (amended): `tokenize_metar` extracts the first wind group matching
`DDD SS (G GG)? KT` where `DDD` is a three-digit heading only — the literal
`VRB` is not recognised and such a report yields a `None` wind token; for a
report whose wind group is `27015G25KT` it yields direction `"270"`,
speed `"15"` and gust `"25"`. -/
theorem C6_amended_wind_extraction :
    (tokenize_metar (some "KTUS 261152Z 27015G25KT 10SM")).wind =
      some ⟨"270".data, "15".data, "25".data⟩ ∧
    (tokenize_metar (some "KXXX 261152Z VRB06KT 10SM")).wind = none := by decide

/-- On a non-empty raw text, the engine is active exactly on the hard or
soft trigger. -/
theorem recommend_active_eq (dist : ℚ → ℚ → ℚ → ℚ → ℚ) (primary : AirportInfo)
    (raw : String) (sev : String) (route : Option (List RouteLeg))
    (h : raw.data.isEmpty = false) :
    (recommend_operational_actions dist primary (some raw) sev route).active =
      ((sev == "SEVERE") || softTrigger (parse_basic_tokens raw.data)) := by
  simp only [recommend_operational_actions, recommendFull, h]
  cases hc : ((sev == "SEVERE") || softTrigger (parse_basic_tokens raw.data)) <;>
    simp [hc, activeDecision, inactiveDecision]

/-- The soft trigger unfolded into its three guarded comparisons. -/
theorem softTrigger_iff (t : BasicTokens) :
    softTrigger t = true ↔
      ((∃ v, t.vis_sm = some v ∧ v ≤ 3) ∨ (∃ c, t.ceil_ft = some c ∧ c < 1000) ∨
        (∃ g, t.gust = some g ∧ 30 ≤ g)) := by
  unfold softTrigger
  cases hv : t.vis_sm <;> cases hc : t.ceil_ft <;> cases hg : t.gust <;>
    simp [hv, hc, hg, or_assoc]

/-- The ceiling notion asserted by the claim: vertical visibility when
present, otherwise the minimum base of all BKN/OVC layers of the report
(both read off with the `tokenize_metar` scanners). -/
def claimCeilC1 (s : List Char) : Option Nat :=
  match (reSearch vvMatchAt none s).map Prod.fst with
  | some v => some v
  | none =>
    pyMin (((cloudScanFuel (s.length + 1) none s).filter
      (fun p => p.1 == "BKN".data || p.1 == "OVC".data)).map
        (fun p => digitsToNat p.2 * 100))

/-- The soft trigger asserted by the claim: as in the source but with the
ceiling replaced by `claimCeilC1`. -/
def claimSoftC1 (s : List Char) : Bool :=
  (match (parse_basic_tokens s).vis_sm with
   | some v => decide (v ≤ (3 : ℚ))
   | none => false) ||
  (match claimCeilC1 s with
   | some c => decide (c < 1000)
   | none => false) ||
  (match (parse_basic_tokens s).gust with
   | some g => decide (30 ≤ g)
   | none => false)

/-- Counterexample for C1: in `"KXXX 121212Z OVC050 BKN005"` the first
BKN/OVC group is `OVC050` (ceiling 5000 ft), so the code's soft trigger is
false and the engine stays inactive, while the claim's ceiling
(minimum BKN/OVC base, 500 ft) would make the soft trigger true. -/
theorem C1_counterexample :
    softTrigger (parse_basic_tokens "KXXX 121212Z OVC050 BKN005".data) = false ∧
    claimSoftC1 "KXXX 121212Z OVC050 BKN005".data = true ∧
    (recommend_operational_actions zeroDist ktusInfo
      (some "KXXX 121212Z OVC050 BKN005") "CLEAR" none).active = false := by decide

/-- C1 (amended): for every non-empty raw METAR the engine is active
exactly when severity is SEVERE or the soft trigger
`(visibility ≤ 3 SM) ∨ (ceiling < 1000 ft) ∨ (gust ≥ 30 kt)` holds, where
the ceiling is `parse_basic_tokens`' `ceil_ft`: the base of the *first*
BKN/OVC group of the string — not the minimum over all layers, and vertical
visibility is never consulted. -/
theorem C1_amended_soft_trigger (dist : ℚ → ℚ → ℚ → ℚ → ℚ)
    (primary : AirportInfo) (sev : String) (route : Option (List RouteLeg))
    (s : String) (h : s ≠ "") :
    (recommend_operational_actions dist primary (some s) sev route).active = true ↔
      (sev = "SEVERE" ∨
        (∃ v, (parse_basic_tokens s.data).vis_sm = some v ∧ v ≤ 3) ∨
        (∃ c, (parse_basic_tokens s.data).ceil_ft = some c ∧ c < 1000) ∨
        (∃ g, (parse_basic_tokens s.data).gust = some g ∧ 30 ≤ g)) := by
  have hne : s.data.isEmpty = false := by
    cases s with
    | mk l =>
      cases l with
      | nil => simp at h
      | cons c cs => rfl
  rw [recommend_active_eq dist primary s sev route hne, Bool.or_eq_true,
    beq_iff_eq, softTrigger_iff]

/-- Witness for C1: a report with 1 SM visibility activates the engine. -/
theorem C1_witness :
    ("KXXX 1SM FG" : String) ≠ "" ∧
      ((recommend_operational_actions zeroDist ktusInfo (some "KXXX 1SM FG")
          "CLEAR" none).active = true ↔
        ("CLEAR" = "SEVERE" ∨
          (∃ v, (parse_basic_tokens "KXXX 1SM FG".data).vis_sm = some v ∧ v ≤ 3) ∨
          (∃ c, (parse_basic_tokens "KXXX 1SM FG".data).ceil_ft = some c ∧ c < 1000) ∨
          (∃ g, (parse_basic_tokens "KXXX 1SM FG".data).gust = some g ∧ 30 ≤ g))) :=
  ⟨by decide,
   C1_amended_soft_trigger zeroDist ktusInfo "CLEAR" none "KXXX 1SM FG" (by decide)⟩

/-- Every run of the engine has either no alternates or the active-branch
shortlist. -/
theorem alternates_cases (dist : ℚ → ℚ → ℚ → ℚ → ℚ) (primary : AirportInfo)
    (metar : Option String) (sev : String) (route : Option (List RouteLeg)) :
    (recommend_operational_actions dist primary metar sev route).alternate_candidates = [] ∨
    (recommend_operational_actions dist primary metar sev route).alternate_candidates =
      activeAlternates dist primary route := by
  cases metar with
  | none => exact Or.inl rfl
  | some raw =>
    by_cases he : raw.data.isEmpty
    · exact Or.inl (by simp [recommend_operational_actions, recommendFull, he, inactiveDecision])
    · simp only [recommend_operational_actions, recommendFull, eq_false_of_ne_true he,
        Bool.false_eq_true, if_false]
      cases hc : ((sev == "SEVERE") || softTrigger (parse_basic_tokens raw.data))
      · exact Or.inl (by simp [hc, inactiveDecision])
      · exact Or.inr (by simp [hc, activeDecision])

/-- C10: a coordinate equal to `0.0` is treated as missing.  If the primary
airport's latitude or longitude is `0.0`, `alternate_candidates` is empty
regardless of route; and every alternate candidate stems from a route member
whose coordinates are truthy (present and non-zero), so members with a
`0.0` coordinate are excluded from candidacy. -/
theorem C10_zero_coordinate_excluded (dist : ℚ → ℚ → ℚ → ℚ → ℚ)
    (primary : AirportInfo) (metar : Option String) (sev : String)
    (route : Option (List RouteLeg)) :
    ((primary.latitude = some 0 ∨ primary.longitude = some 0) →
      (recommend_operational_actions dist primary metar sev route).alternate_candidates = []) ∧
    (∀ c ∈ (recommend_operational_actions dist primary metar sev route).alternate_candidates,
      ∃ ap, ap ∈ route.getD [] ∧
        optQTruthy ap.info.latitude = true ∧ optQTruthy ap.info.longitude = true ∧
        ap.info.latitude ≠ some 0 ∧ ap.info.longitude ≠ some 0 ∧
        c.code = ap.code ∧ c.name = ap.info.name ∧ c.severity = ap.severity) := by
  have hsub : ∀ c ∈ activeAlternates dist primary route,
      ∃ ap, ap ∈ route.getD [] ∧
        optQTruthy ap.info.latitude = true ∧ optQTruthy ap.info.longitude = true ∧
        ap.info.latitude ≠ some 0 ∧ ap.info.longitude ≠ some 0 ∧
        c.code = ap.code ∧ c.name = ap.info.name ∧ c.severity = ap.severity := by
    intro c hc
    unfold activeAlternates at hc
    by_cases hcond : (routeTruthy route && optQTruthy primary.latitude &&
        optQTruthy primary.longitude) = true
    · rw [if_pos hcond] at hc
      have hc2 := (List.perm_insertionSort (fun a b => candLE a b = true) _).subset
        (List.take_subset 5 _ hc)
      obtain ⟨ap, hap, hco⟩ := List.mem_filterMap.mp hc2
      refine ⟨ap, hap, ?_⟩
      unfold candidateOf at hco
      by_cases htr : (optQTruthy ap.info.latitude && optQTruthy ap.info.longitude) = true
      · obtain ⟨hlat, hlon⟩ := Bool.and_eq_true_iff.mp htr
        refine ⟨hlat, hlon, ?_, ?_, ?_⟩
        · intro h0; rw [h0] at hlat; simp [optQTruthy] at hlat
        · intro h0; rw [h0] at hlon; simp [optQTruthy] at hlon
        · rw [htr] at hco
          simp only [Bool.not_true, Bool.false_eq_true, if_false] at hco
          by_cases hsev : (ap.severity == "SEVERE") = true
          · rw [if_pos hsev] at hco; cases hco
          · rw [if_neg hsev] at hco
            by_cases hdle : dist (primary.latitude.getD 0) (primary.longitude.getD 0)
                (ap.info.latitude.getD 0) (ap.info.longitude.getD 0) ≤ (350 : ℚ)
            · rw [if_pos hdle] at hco
              cases hco
              simp [mkCandidate]
            · rw [if_neg hdle] at hco; cases hco
      · rw [eq_false_of_ne_true htr] at hco
        simp only [Bool.not_false, if_true] at hco
        cases hco
    · rw [if_neg hcond] at hc
      cases hc
  constructor
  · intro h0
    rcases alternates_cases dist primary metar sev route with he | he
    · exact he
    · rw [he]
      unfold activeAlternates
      have : (routeTruthy route && optQTruthy primary.latitude &&
          optQTruthy primary.longitude) = false := by
        rcases h0 with h0 | h0 <;> rw [h0] <;> simp [optQTruthy]
      rw [this]
      rfl
  · intro c hc
    rcases alternates_cases dist primary metar sev route with he | he
    · rw [he] at hc; cases hc
    · rw [he] at hc; exact hsub c hc

/-- Witness for C10: an active call whose primary latitude is `0.0` gets an
empty alternates list even with a well-formed route. -/
theorem C10_witness :
    (recommend_operational_actions latDist
        { name := "P", latitude := some 0, longitude := some 1 }
        (some "KXXX 1SM FG") "CLEAR"
        (some [{ code := "AAA",
                 info := { name := "A", latitude := some 100, longitude := some 1 },
                 severity := "CLEAR" }])).active = true ∧
    (recommend_operational_actions latDist
        { name := "P", latitude := some 0, longitude := some 1 }
        (some "KXXX 1SM FG") "CLEAR"
        (some [{ code := "AAA",
                 info := { name := "A", latitude := some 100, longitude := some 1 },
                 severity := "CLEAR" }])).alternate_candidates = [] :=
  ⟨by decide,
   (C10_zero_coordinate_excluded latDist
      { name := "P", latitude := some 0, longitude := some 1 }
      (some "KXXX 1SM FG") "CLEAR"
      (some [{ code := "AAA",
               info := { name := "A", latitude := some 100, longitude := some 1 },
               severity := "CLEAR" }])).1 (Or.inl rfl)⟩

/-- A digit character has code point between 48 and 57. -/
theorem charDigit_toNat {c : Char} (h : c.isDigit = true) :
    48 ≤ c.toNat ∧ c.toNat ≤ 57 := by
  unfold Char.isDigit at h
  rw [Bool.and_eq_true] at h
  obtain ⟨h1, h2⟩ := h
  rw [decide_eq_true_iff] at h1 h2
  exact ⟨h1, h2⟩

/-- Characters with equal code points are equal. -/
theorem char_eq_of_toNat {c d : Char} (h : c.toNat = d.toNat) : c = d :=
  Char.ext (UInt32.toNat.inj h)

/-- The numeric reading of the low-cloud character classes: matching
`00\d|01\d|02\d` is the same as being three digits whose decimal value is
below 30 (i.e. a base code in 000–029). -/
theorem lowCloudCond_eq (A : Bool) (d1 d2 d3 : Char) :
    (A && d1 == '0' && (d2 == '0' || d2 == '1' || d2 == '2') && d3.isDigit) =
    (A && d1.isDigit && d2.isDigit && d3.isDigit &&
      decide (digitsToNat [d1, d2, d3] < 30)) := by
  cases A
  · simp
  · have hval : digitsToNat [d1, d2, d3] =
        ((d1.toNat - 48) * 10 + (d2.toNat - 48)) * 10 + (d3.toNat - 48) := by
      simp [digitsToNat, List.foldl]
    have e0 : ('0' : Char).toNat = 48 := rfl
    have e1' : ('1' : Char).toNat = 49 := rfl
    have e2' : ('2' : Char).toNat = 50 := rfl
    rw [Bool.eq_iff_iff]
    simp only [Bool.and_eq_true, Bool.or_eq_true, beq_iff_eq, decide_eq_true_iff,
      true_and]
    constructor
    · rintro ⟨⟨h1, h2⟩, h3⟩
      have hb3 := charDigit_toNat h3
      have hd1 : d1.toNat = 48 := by rw [h1]; exact e0
      have hd2 : d2.toNat = 48 ∨ d2.toNat = 49 ∨ d2.toNat = 50 := by
        rcases h2 with (h2 | h2) | h2 <;> rw [h2]
        · exact Or.inl e0
        · exact Or.inr (Or.inl e1')
        · exact Or.inr (Or.inr e2')
      have hdig : ∀ c : Char, 48 ≤ c.toNat → c.toNat ≤ 57 → c.isDigit = true := by
        intro c hc1 hc2
        unfold Char.isDigit
        rw [Bool.and_eq_true, decide_eq_true_iff, decide_eq_true_iff]
        exact ⟨hc1, hc2⟩
      refine ⟨⟨⟨hdig d1 (by omega) (by omega), hdig d2 (by omega) (by omega)⟩, h3⟩, ?_⟩
      rw [hval]
      omega
    · rintro ⟨⟨⟨h1, h2⟩, h3⟩, hv⟩
      have hb1 := charDigit_toNat h1
      have hb2 := charDigit_toNat h2
      have hb3 := charDigit_toNat h3
      rw [hval] at hv
      have f1 : d1.toNat = 48 := by omega
      have f2 : d2.toNat = 48 ∨ d2.toNat = 49 ∨ d2.toNat = 50 := by omega
      refine ⟨⟨char_eq_of_toNat (by rw [f1, e0]), ?_⟩, h3⟩
      rcases f2 with f2 | f2 | f2
      · exact Or.inl (Or.inl (char_eq_of_toNat (by rw [f2, e0])))
      · exact Or.inl (Or.inr (char_eq_of_toNat (by rw [f2, e1'])))
      · exact Or.inr (char_eq_of_toNat (by rw [f2, e2']))

/-- The low-cloud condition as the claim states it: some BKN/OVC occurrence
followed by three digits with value in 000–029. -/
def lowCloudSpecC4 : List Char → Bool
  | c1 :: c2 :: c3 :: d1 :: d2 :: d3 :: rest =>
    ((([c1, c2, c3] == ['B', 'K', 'N']) || ([c1, c2, c3] == ['O', 'V', 'C'])) &&
      d1.isDigit && d2.isDigit && d3.isDigit &&
      decide (digitsToNat [d1, d2, d3] < 30))
    || lowCloudSpecC4 (c2 :: c3 :: d1 :: d2 :: d3 :: rest)
  | _ => false

/-- The source's character-class scan agrees with the claim's numeric
range scan. -/
theorem lowCloudScan_eq (s : List Char) : lowCloudScan s = lowCloudSpecC4 s := by
  induction s with
  | nil => rfl
  | cons c1 cs ih =>
    rcases cs with _ | ⟨c2, _ | ⟨c3, _ | ⟨d1, _ | ⟨d2, _ | ⟨d3, rest⟩⟩⟩⟩⟩
    · rfl
    · rfl
    · rfl
    · rfl
    · rfl
    · simp only [lowCloudScan, lowCloudSpecC4]
      rw [ih, lowCloudCond_eq]

/-- The severity classifier as the claim states it: empty (or `None`)
input is UNKNOWN; a severe-marker substring forces SEVERE; otherwise one
point per family (precipitation, visibility reducers, a BKN/OVC layer with
base code in 000–029) and MODERATE exactly when the score is at least 1. -/
def classifySpecC4 (m : Option String) : String :=
  match m with
  | none => "UNKNOWN"
  | some raw =>
    if raw = "" then "UNKNOWN"
    else
      let text := pyUpper raw.data
      if severeIndicators.any (fun i => pyIn i text) then "SEVERE"
      else
        let score :=
          (if precipIndicators.any (fun i => pyIn i text) then 1 else 0) +
          (if visReducers.any (fun i => pyIn i text) then 1 else 0) +
          (if lowCloudSpecC4 text then 1 else 0)
        if 1 ≤ score then "MODERATE" else "CLEAR"

/-- A non-empty string has non-empty character data. -/
theorem string_isEmpty_false {s : String} (h : s ≠ "") : s.data.isEmpty = false := by
  cases s with
  | mk l =>
    cases l with
    | nil => simp at h
    | cons c cs => rfl

/-- C4: `analyze_severity` implements the claim's tiered algorithm exactly
(empty input UNKNOWN, severe substrings force SEVERE, at most one point per
moderate family, MODERATE iff score ≥ 1, CLEAR otherwise); in particular
any non-empty text containing "RA" and "BR" but no severe marker is
MODERATE, never higher. -/
theorem C4_tiered_classifier :
    (∀ m : Option String, analyze_severity m = classifySpecC4 m) ∧
    (∀ s : String, s ≠ "" →
      pyIn "RA".data (pyUpper s.data) = true →
      pyIn "BR".data (pyUpper s.data) = true →
      (∀ i ∈ severeIndicators, pyIn i (pyUpper s.data) = false) →
      analyze_severity (some s) = "MODERATE") := by
  constructor
  · intro m
    cases m with
    | none => rfl
    | some raw =>
      by_cases h : raw = ""
      · subst h; rfl
      · have hne := string_isEmpty_false h
        simp only [analyze_severity, classifySpecC4, hne, if_neg h,
          Bool.false_eq_true, if_false]
        rw [lowCloudScan_eq]
  · intro s hs hra hbr hsev
    have hne := string_isEmpty_false hs
    have hsevAny : severeIndicators.any (fun i => pyIn i (pyUpper s.data)) = false := by
      rw [List.any_eq_false]
      intro i hi
      simp [hsev i hi]
    have hprec : precipIndicators.any (fun i => pyIn i (pyUpper s.data)) = true := by
      rw [List.any_eq_true]
      exact ⟨"RA".data, by simp [precipIndicators], hra⟩
    simp only [analyze_severity, hne, Bool.false_eq_true, if_false, hsevAny, hprec,
      if_true]
    have key : ∀ x y : Nat,
        (if 1 ≤ 1 + x + y then "MODERATE" else "CLEAR") = "MODERATE" :=
      fun x y => if_pos (by omega)
    exact key _ _

/-- Witness for C4: a report containing RA and BR and no severe marker. -/
theorem C4_witness :
    ("KXXX RA BR" : String) ≠ "" ∧
      analyze_severity (some "KXXX RA BR") = "MODERATE" :=
  ⟨by decide,
   C4_tiered_classifier.2 "KXXX RA BR" (by decide) (by decide) (by decide)
     (by decide)⟩

/-! ### Exception models for the totality claim

Python raise points are modelled explicitly: `metar_text.upper()` /
`re.search(..., metar_text)` on `None` (guarded by `if not metar_text`), and
`int(b)` on cloud-base strings inside `deterministic_summary` (reached only
through the ceiling derivation and the Clouds clause). -/

/-- `analyze_severity` with its `None` raise point explicit: the falsiness
guard runs first; past it, `None` would hit `.upper()`. -/
def analyze_severityE (m : Option String) : Except String String :=
  if rawFalsy m then Except.ok "UNKNOWN"
  else
    match m with
    | none => Except.error "AttributeError"
    | some raw => Except.ok (analyze_severity (some raw))

/-- `recommend_operational_actions` with its `None` raise point explicit:
past the falsiness guard, `None` would hit `re.search` in
`parse_basic_tokens`. -/
def recommend_operational_actionsE (dist : ℚ → ℚ → ℚ → ℚ → ℚ)
    (primary : AirportInfo) (m : Option String) (sev : String)
    (route : Option (List RouteLeg)) : Except String Decision :=
  if rawFalsy m then Except.ok inactiveDecision
  else
    match m with
    | none => Except.error "TypeError"
    | some raw =>
      Except.ok (recommend_operational_actions dist primary (some raw) sev route)

/-- A cloud-base string accepted by Python `int`. -/
def intParses (b : List Char) : Bool := (!b.isEmpty) && b.all Char.isDigit

/-- `deterministic_summary` with its `int(b)` raise points explicit:
the bases comprehension runs when the vertical visibility is falsy and cloud
layers exist (on the BKN/OVC layers); the Clouds clause runs when the
derived ceiling is falsy and cloud layers exist (on all layers). -/
def deterministic_summaryE (t : MetarTokens) : Except String (List Char) :=
  let falsy0 : Bool := match t.vv with | none => true | some n => n == 0
  if falsy0 && !t.clouds.isEmpty &&
      !((t.clouds.filter (fun p => p.1 == "BKN".data || p.1 == "OVC".data)).all
        (fun p => intParses p.2)) then
    Except.error "ValueError"
  else
    let ceilFalsy : Bool := match summaryCeil t with | none => true | some n => n == 0
    if ceilFalsy && !t.clouds.isEmpty && !(t.clouds.all (fun p => intParses p.2)) then
      Except.error "ValueError"
    else Except.ok (deterministic_summary t)

/-- A successful cloud match carries a non-empty all-digit base. -/
theorem tryCloudAt_digits {prev : Option Char} {s : List Char}
    {g : List Char × List Char} {lc : Char} {rest : List Char}
    (h : tryCloudAt prev s = some (g, lc, rest)) : intParses g.2 = true := by
  unfold tryCloudAt at h
  split at h
  · split at h
    · split at h
      · rename_i hcond
        simp only [Bool.and_eq_true] at hcond
        obtain ⟨⟨⟨⟨_, h1⟩, h2⟩, h3⟩, _⟩ := hcond
        injection h with h'
        injection h' with ha hb
        subst ha
        simp [intParses, h1, h2, h3]
      · exact Option.noConfusion h
    · exact Option.noConfusion h
  · exact Option.noConfusion h

/-- One-step unfolding of the cloud scanner. -/
theorem cloudScanFuel_succ (n : Nat) (prev : Option Char) (s : List Char) :
    cloudScanFuel (n + 1) prev s =
      match tryCloudAt prev s with
      | some (g, lastc, rest) => g :: cloudScanFuel n (some lastc) rest
      | none =>
        match s with
        | [] => []
        | c :: cs => cloudScanFuel n (some c) cs := rfl

/-- Every base string produced by the cloud scanner parses as an integer. -/
theorem cloudScanFuel_digits :
    ∀ (fuel : Nat) (prev : Option Char) (s : List Char),
      ∀ p ∈ cloudScanFuel fuel prev s, intParses p.2 = true := by
  intro fuel
  induction fuel with
  | zero => intro prev s p hp; simp [cloudScanFuel] at hp
  | succ n ih =>
    intro prev s p hp
    rw [cloudScanFuel_succ] at hp
    cases htc : tryCloudAt prev s with
    | some trip =>
      obtain ⟨g, lastc, rest⟩ := trip
      rw [htc] at hp
      rcases List.mem_cons.mp hp with hp | hp
      · subst hp; exact tryCloudAt_digits htc
      · exact ih _ _ p hp
    | none =>
      rw [htc] at hp
      cases s with
      | nil => cases hp
      | cons c cs => exact ih _ _ p hp

/-- When every cloud base parses, the summary raises nothing. -/
theorem deterministic_summaryE_ok (t : MetarTokens)
    (h : ∀ p ∈ t.clouds, intParses p.2 = true) :
    deterministic_summaryE t = Except.ok (deterministic_summary t) := by
  have hall : t.clouds.all (fun p => intParses p.2) = true :=
    List.all_eq_true.mpr h
  have hfil : (t.clouds.filter
      (fun p => p.1 == "BKN".data || p.1 == "OVC".data)).all
        (fun p => intParses p.2) = true :=
    List.all_eq_true.mpr (fun p hp => h p (List.mem_of_mem_filter hp))
  unfold deterministic_summaryE
  simp [hall, hfil]

/-- C3: none of the four core functions can raise, for any string or `None`
input: the falsiness guards keep `None` away from `.upper()`/`re.search`,
every cloud base handed to `int` by the summarizer is a digit string, and
`tokenize_metar` returns a record with every field present, defaulting to
`None`/empty on missing input. -/
theorem C3_no_exceptions (dist : ℚ → ℚ → ℚ → ℚ → ℚ) (primary : AirportInfo)
    (sev : String) (route : Option (List RouteLeg)) (m : Option String) :
    (∃ r, analyze_severityE m = Except.ok r) ∧
    (∃ s, deterministic_summaryE (tokenize_metar m) = Except.ok s) ∧
    (∃ d, recommend_operational_actionsE dist primary m sev route = Except.ok d) ∧
    tokenize_metar none =
      { wind := none, vis := none, wx := [], clouds := [], vv := none,
        temp := none, dew := none, alt := none } ∧
    tokenize_metar (some "") =
      { wind := none, vis := none, wx := [], clouds := [], vv := none,
        temp := none, dew := none, alt := none } := by
  refine ⟨?_, ?_, ?_, by decide, by decide⟩
  · cases m with
    | none => exact ⟨"UNKNOWN", rfl⟩
    | some raw =>
      by_cases h : raw.data.isEmpty
      · exact ⟨"UNKNOWN", by simp [analyze_severityE, rawFalsy, h]⟩
      · exact ⟨analyze_severity (some raw), by simp [analyze_severityE, rawFalsy, h]⟩
  · refine ⟨deterministic_summary (tokenize_metar m), ?_⟩
    apply deterministic_summaryE_ok
    intro p hp
    exact cloudScanFuel_digits _ _ _ p hp
  · cases m with
    | none => exact ⟨inactiveDecision, rfl⟩
    | some raw =>
      by_cases h : raw.data.isEmpty
      · exact ⟨inactiveDecision, by simp [recommend_operational_actionsE, rawFalsy, h]⟩
      · exact ⟨recommend_operational_actions dist primary (some raw) sev route,
          by simp [recommend_operational_actionsE, rawFalsy, h]⟩

/-- The candidate comparator is total. -/
theorem candLE_total (a b : Candidate) : candLE a b = true ∨ candLE b a = true := by
  unfold candLE
  cases ha : (a.severity != "CLEAR") <;> cases hb : (b.severity != "CLEAR") <;>
    simp [ha, hb] <;> exact le_total a.distance_nm b.distance_nm

/-- The candidate comparator is transitive. -/
theorem candLE_trans (a b c : Candidate) (h1 : candLE a b = true)
    (h2 : candLE b c = true) : candLE a c = true := by
  unfold candLE at *
  cases ha : (a.severity != "CLEAR") <;> cases hb : (b.severity != "CLEAR") <;>
    cases hc : (c.severity != "CLEAR") <;> simp_all <;>
    exact le_trans h1 h2

/-- An active run exposes the active-branch alternates. -/
theorem active_alternates_eq (dist : ℚ → ℚ → ℚ → ℚ → ℚ) (primary : AirportInfo)
    (metar : Option String) (sev : String) (route : Option (List RouteLeg))
    (h : (recommend_operational_actions dist primary metar sev route).active = true) :
    (recommend_operational_actions dist primary metar sev route).alternate_candidates =
      activeAlternates dist primary route := by
  cases metar with
  | none => exact absurd h (by simp [recommend_operational_actions, recommendFull, inactiveDecision])
  | some raw =>
    by_cases he : raw.data.isEmpty
    · exact absurd h
        (by simp [recommend_operational_actions, recommendFull, he, inactiveDecision])
    · simp only [recommend_operational_actions, recommendFull, he, Bool.false_eq_true,
        if_false] at h ⊢
      cases hc : ((sev == "SEVERE") || softTrigger (parse_basic_tokens raw.data))
      · rw [hc] at h
        simp [inactiveDecision] at h
      · simp [activeDecision]

/-- `candLE` in the claim's language: CLEAR airports precede non-CLEAR
ones, and within a tier the stored distance is non-decreasing. -/
theorem candLE_imp (a b : Candidate) (h : candLE a b = true) :
    (a.severity = "CLEAR" ∧ b.severity ≠ "CLEAR") ∨
    ((a.severity = "CLEAR" ↔ b.severity = "CLEAR") ∧
      a.distance_nm ≤ b.distance_nm) := by
  unfold candLE at h
  by_cases ha : a.severity = "CLEAR" <;> by_cases hb : b.severity = "CLEAR"
  · have ka : (a.severity != "CLEAR") = false := by simp [ha]
    have kb : (b.severity != "CLEAR") = false := by simp [hb]
    rw [ka, kb] at h
    simp at h
    exact Or.inr ⟨by simp [ha, hb], h⟩
  · exact Or.inl ⟨ha, hb⟩
  · have ka : (a.severity != "CLEAR") = true := by simp [ha]
    have kb : (b.severity != "CLEAR") = false := by simp [hb]
    rw [ka, kb] at h
    simp at h
  · have ka : (a.severity != "CLEAR") = true := by simp [ha]
    have kb : (b.severity != "CLEAR") = true := by simp [hb]
    rw [ka, kb] at h
    simp at h
    exact Or.inr ⟨by simp [ha, hb], h⟩

/-- C5: for an active run with a non-empty route and truthy primary
coordinates, `alternate_candidates` is the first five of a stable sort of
exactly the qualifying route members (truthy coordinates, severity ≠
SEVERE, distance ≤ 350 NM, as `candidateOf`); the list is sorted so that
every CLEAR candidate precedes every non-CLEAR one and within a tier the
stored distances are non-decreasing, and it has at most five entries. -/
theorem C5_alternates_ranking (dist : ℚ → ℚ → ℚ → ℚ → ℚ)
    (primary : AirportInfo) (metar : Option String) (sev : String)
    (l : List RouteLeg) (hne : l ≠ [])
    (hlat : optQTruthy primary.latitude = true)
    (hlon : optQTruthy primary.longitude = true)
    (hact : (recommend_operational_actions dist primary metar sev (some l)).active = true) :
    ∃ sorted : List Candidate,
      sorted.Perm (l.filterMap
        (candidateOf dist (primary.latitude.getD 0) (primary.longitude.getD 0))) ∧
      List.Sorted (fun a b => candLE a b = true) sorted ∧
      (recommend_operational_actions dist primary metar sev (some l)).alternate_candidates =
        sorted.take 5 ∧
      (recommend_operational_actions dist primary metar sev
          (some l)).alternate_candidates.Pairwise
        (fun a b => (a.severity = "CLEAR" ∧ b.severity ≠ "CLEAR") ∨
          ((a.severity = "CLEAR" ↔ b.severity = "CLEAR") ∧
            a.distance_nm ≤ b.distance_nm)) ∧
      (recommend_operational_actions dist primary metar sev
          (some l)).alternate_candidates.length ≤ 5 := by
  have halt := active_alternates_eq dist primary metar sev (some l) hact
  have hroute : routeTruthy (some l) = true := by
    simp [routeTruthy, hne]
  have hcond : (routeTruthy (some l) && optQTruthy primary.latitude &&
      optQTruthy primary.longitude) = true := by
    rw [hroute, hlat, hlon]; rfl
  have halt2 : (recommend_operational_actions dist primary metar sev
      (some l)).alternate_candidates =
      ((l.filterMap (candidateOf dist (primary.latitude.getD 0)
        (primary.longitude.getD 0))).insertionSort
          (fun a b => candLE a b = true)).take 5 := by
    rw [halt]
    unfold activeAlternates
    rw [if_pos hcond]
    rfl
  haveI : IsTotal Candidate (fun a b => candLE a b = true) := ⟨candLE_total⟩
  haveI : IsTrans Candidate (fun a b => candLE a b = true) := ⟨candLE_trans⟩
  refine ⟨(l.filterMap (candidateOf dist (primary.latitude.getD 0)
      (primary.longitude.getD 0))).insertionSort (fun a b => candLE a b = true),
    List.perm_insertionSort _ _, List.sorted_insertionSort _ _, halt2, ?_, ?_⟩
  · rw [halt2]
    exact ((List.sorted_insertionSort _ _).sublist (List.take_sublist 5 _)).imp
      (fun h => candLE_imp _ _ h)
  · rw [halt2]
    exact List.length_take_le 5 _

/-- The primary airport of the C5 concrete scenario. -/
def c5Primary : AirportInfo := { name := "P", latitude := some 1, longitude := some 1 }

/-- The six-member route of the C5 concrete scenario (one SEVERE member,
one with a zero coordinate, one beyond 350 NM under `latDist`). -/
def c5Route : List RouteLeg :=
  [ { code := "AAA", info := { name := "A", latitude := some 300, longitude := some 1 },
      severity := "MODERATE" },
    { code := "BBB", info := { name := "B", latitude := some 100, longitude := some 1 },
      severity := "CLEAR" },
    { code := "CCC", info := { name := "C", latitude := some 200, longitude := some 1 },
      severity := "MODERATE" },
    { code := "DDD", info := { name := "D", latitude := some 400, longitude := some 1 },
      severity := "CLEAR" },
    { code := "EEE", info := { name := "E", latitude := some 50, longitude := some 1 },
      severity := "SEVERE" },
    { code := "FFF", info := { name := "F", latitude := some 0, longitude := some 1 },
      severity := "CLEAR" } ]

/-- Witness for C5: the concrete six-member scenario satisfies the
hypotheses and hence the ranking conclusion. -/
theorem C5_witness :
    (c5Route ≠ [] ∧ optQTruthy c5Primary.latitude = true ∧
      optQTruthy c5Primary.longitude = true ∧
      (recommend_operational_actions latDist c5Primary (some "KXXX 1SM FG")
        "CLEAR" (some c5Route)).active = true) ∧
    ∃ sorted : List Candidate,
      sorted.Perm (c5Route.filterMap
        (candidateOf latDist (c5Primary.latitude.getD 0) (c5Primary.longitude.getD 0))) ∧
      List.Sorted (fun a b => candLE a b = true) sorted ∧
      (recommend_operational_actions latDist c5Primary (some "KXXX 1SM FG")
        "CLEAR" (some c5Route)).alternate_candidates = sorted.take 5 ∧
      (recommend_operational_actions latDist c5Primary (some "KXXX 1SM FG")
        "CLEAR" (some c5Route)).alternate_candidates.Pairwise
        (fun a b => (a.severity = "CLEAR" ∧ b.severity ≠ "CLEAR") ∨
          ((a.severity = "CLEAR" ↔ b.severity = "CLEAR") ∧
            a.distance_nm ≤ b.distance_nm)) ∧
      (recommend_operational_actions latDist c5Primary (some "KXXX 1SM FG")
        "CLEAR" (some c5Route)).alternate_candidates.length ≤ 5 :=
  ⟨⟨by decide, by decide, by decide, by decide⟩,
   C5_alternates_ranking latDist c5Primary (some "KXXX 1SM FG") "CLEAR" c5Route
     (by decide) (by decide) (by decide) (by decide)⟩

/-! ### Numeric literals of a string (for the no-hallucination claim)

A numeric literal is a maximal run of numeric characters (digits, `.`,
`-`, `/`) that contains at least one digit; `numerals` lists them in
order of appearance. -/

/-- Characters that may be part of a numeric literal. -/
def numChar (c : Char) : Bool := c.isDigit || c == '.' || c == '-' || c == '/'

/-- Maximal runs of numeric characters (`acc` is the current run, reversed). -/
def numRunsAux : List Char → List Char → List (List Char)
  | acc, [] => if acc.isEmpty then [] else [acc.reverse]
  | acc, c :: cs =>
    if numChar c then numRunsAux (c :: acc) cs
    else if acc.isEmpty then numRunsAux [] cs
    else acc.reverse :: numRunsAux [] cs

/-- The numeric literals of a string. -/
def numerals (s : List Char) : List (List Char) :=
  (numRunsAux [] s).filter (fun r => r.any Char.isDigit)

/-- Whether a string is safe to be followed by numeric characters: it is
empty or ends in a non-numeric character. -/
def endsSafe (l : List Char) : Bool := l.foldl (fun _ c => !numChar c) true

theorem endsSafe_concat (a : List Char) (c : Char) :
    endsSafe (a ++ [c]) = !numChar c := by
  unfold endsSafe
  rw [List.foldl_append]
  rfl

theorem numRunsAux_break {c : Char} (hc : numChar c = false) :
    ∀ (a acc b : List Char),
      numRunsAux acc (a ++ c :: b) = numRunsAux acc a ++ numRunsAux [] b := by
  intro a
  induction a with
  | nil =>
    intro acc b
    cases acc with
    | nil => simp [numRunsAux, hc]
    | cons x xs => simp [numRunsAux, hc]
  | cons x xs ih =>
    intro acc b
    by_cases hx : numChar x = true
    · simp [numRunsAux, hx, ih]
    · cases acc with
      | nil => simp [numRunsAux, hx, ih]
      | cons y ys => simp [numRunsAux, hx, ih]

theorem numerals_break {c : Char} (hc : numChar c = false) (a b : List Char) :
    numerals (a ++ c :: b) = numerals a ++ numerals b := by
  unfold numerals
  rw [numRunsAux_break hc a [] b, List.filter_append]

theorem numerals_concat {c : Char} (hc : numChar c = false) (a : List Char) :
    numerals (a ++ [c]) = numerals a := by
  have h := numerals_break hc a []
  simpa [show numerals ([] : List Char) = [] from rfl] using h

/-- Appending the joiner's period to a safely-ended string adds no numeral. -/
theorem numerals_append_dot (v : List Char) (h : endsSafe v = true) :
    numerals (v ++ ['.']) = numerals v := by
  rcases List.eq_nil_or_concat v with rfl | ⟨a, c, rfl⟩
  · rfl
  · rw [List.concat_eq_append] at h ⊢
    have hc : numChar c = false := by
      rw [endsSafe_concat] at h
      simpa using h
    rw [List.append_assoc, List.singleton_append, numerals_break hc,
      numerals_concat hc]
    simp [show numerals ['.'] = [] from rfl]

/-- A numeral-free, safely-ended prefix can be dropped. -/
theorem numerals_pre_elim (k : List Char)
    (hk : (endsSafe k && (numerals k).isEmpty) = true) (b : List Char) :
    numerals (k ++ b) = numerals b := by
  obtain ⟨hk1, hk2⟩ := Bool.and_eq_true_iff.mp hk
  rcases List.eq_nil_or_concat k with rfl | ⟨a, c, rfl⟩
  · rfl
  · rw [List.concat_eq_append] at hk1 hk2 ⊢
    have hc : numChar c = false := by
      rw [endsSafe_concat] at hk1
      simpa using hk1
    rw [List.append_assoc, List.singleton_append, numerals_break hc]
    have h2 : numerals a = [] := by
      have h3 := numerals_concat hc a
      rw [List.isEmpty_iff] at hk2
      rw [← h3]; exact hk2
    rw [h2, List.nil_append]

/-- Conditions for a constant connective between two fields: non-empty,
numeral-free, starting and ending with non-numeric characters. -/
def constOk (k : List Char) : Bool :=
  (match k with
   | [] => false
   | c :: _ => !numChar c) && endsSafe k && (numerals k).isEmpty

/-- A connective satisfying `constOk` separates the numerals of its two
sides. -/
theorem numerals_mid_elim (k : List Char) (hk : constOk k = true)
    (v b : List Char) : numerals (v ++ (k ++ b)) = numerals v ++ numerals b := by
  unfold constOk at hk
  have hA := Bool.and_eq_true_iff.mp hk
  have hB := Bool.and_eq_true_iff.mp hA.1
  have hkh := hB.1
  have hke := hB.2
  have hkn := hA.2
  cases k with
  | nil => cases hkh
  | cons c k' =>
    have hc : numChar c = false := by simpa using hkh
    rcases List.eq_nil_or_concat k' with rfl | ⟨mid, L, rfl⟩
    · rw [show v ++ ([c] ++ b) = v ++ c :: b from by simp]
      exact numerals_break hc v b
    · simp only [List.concat_eq_append] at hkh hke hkn ⊢
      have hL : numChar L = false := by
        have : endsSafe ((c :: mid) ++ [L]) = !numChar L := endsSafe_concat _ _
        rw [show c :: (mid ++ [L]) = (c :: mid) ++ [L] from by simp, this] at hke
        simpa using hke
      have hmid : numerals mid = [] := by
        have h1 : numerals (c :: (mid ++ [L])) = numerals (mid ++ [L]) := by
          have := numerals_break hc [] (mid ++ [L])
          simpa using this
        have h2 : numerals (mid ++ [L]) = numerals mid := numerals_concat hL mid
        rw [List.isEmpty_iff] at hkn
        rw [h1, h2] at hkn
        exact hkn
      rw [show v ++ ((c :: (mid ++ [L])) ++ b) = v ++ c :: (mid ++ L :: b) from by simp]
      rw [numerals_break hc, numerals_break hL, hmid, List.nil_append]

theorem numRunsAux_all_num :
    ∀ (s acc : List Char), (∀ x ∈ s, numChar x = true) → (acc ≠ [] ∨ s ≠ []) →
      numRunsAux acc s = [acc.reverse ++ s] := by
  intro s
  induction s with
  | nil =>
    intro acc h hne
    rcases hne with hne | hne
    · simp [numRunsAux, hne]
    · exact absurd rfl hne
  | cons x xs ih =>
    intro acc h _
    have hx : numChar x = true := h x (List.mem_cons_self x xs)
    simp only [numRunsAux, hx, if_true]
    rw [ih (x :: acc) (fun y hy => h y (List.mem_cons_of_mem x hy)) (Or.inl (by simp))]
    simp

/-- A non-empty all-digit string is a single numeral: itself. -/
theorem numerals_all_digits (l : List Char) (h1 : l ≠ [])
    (h2 : ∀ x ∈ l, x.isDigit = true) : numerals l = [l] := by
  unfold numerals
  rw [numRunsAux_all_num l [] (fun x hx => by simp [numChar, h2 x hx]) (Or.inr h1)]
  cases l with
  | nil => exact absurd rfl h1
  | cons x xs =>
    have hx : (x :: xs).any Char.isDigit = true :=
      List.any_eq_true.mpr ⟨x, List.mem_cons_self x xs, h2 x (List.mem_cons_self x xs)⟩
    simp [hx]

theorem numRunsAux_mem :
    ∀ (s acc r : List Char), r ∈ numRunsAux acc s → ∀ x ∈ r, x ∈ acc ∨ x ∈ s := by
  intro s
  induction s with
  | nil =>
    intro acc r hr x hx
    by_cases hacc : acc.isEmpty
    · simp [numRunsAux, hacc] at hr
    · simp [numRunsAux, hacc] at hr
      subst hr
      exact Or.inl (List.mem_reverse.mp hx)
  | cons c cs ih =>
    intro acc r hr x hx
    by_cases hc : numChar c = true
    · simp only [numRunsAux, hc, if_true] at hr
      rcases ih (c :: acc) r hr x hx with h | h
      · rcases List.mem_cons.mp h with h | h
        · exact Or.inr (h ▸ List.mem_cons_self c cs)
        · exact Or.inl h
      · exact Or.inr (List.mem_cons_of_mem c h)
    · by_cases hacc : acc.isEmpty
      · simp only [numRunsAux, hc, hacc, Bool.false_eq_true, if_false, if_true] at hr
        rcases ih [] r hr x hx with h | h
        · cases h
        · exact Or.inr (List.mem_cons_of_mem c h)
      · simp only [numRunsAux, hc, hacc, Bool.false_eq_true, if_false] at hr
        rcases List.mem_cons.mp hr with hr | hr
        · subst hr
          exact Or.inl (List.mem_reverse.mp hx)
        · rcases ih [] r hr x hx with h | h
          · cases h
          · exact Or.inr (List.mem_cons_of_mem c h)

/-- A digit-free string has no numerals. -/
theorem numerals_noDigit (l : List Char) (h : ∀ x ∈ l, x.isDigit = false) :
    numerals l = [] := by
  unfold numerals
  rw [List.filter_eq_nil_iff]
  intro r hr
  simp only [Bool.not_eq_true, List.any_eq_false]
  intro x hx
  rcases numRunsAux_mem l [] r hr x hx with h' | h'
  · cases h'
  · exact h x h'

/-- `Nat.digitChar` of a value below ten is a digit character. -/
theorem digitChar_isDigit {n : Nat} (h : n < 10) :
    (Nat.digitChar n).isDigit = true := by
  interval_cases n <;> decide

/-- Every character the decimal renderer adds is a digit. -/
theorem natDecimalAux_digits :
    ∀ (fuel n : Nat) (acc : List Char), (∀ c ∈ acc, c.isDigit = true) →
      ∀ c ∈ natDecimalAux fuel n acc, c.isDigit = true := by
  intro fuel
  induction fuel with
  | zero => intro n acc hacc c hc; exact hacc c hc
  | succ m ih =>
    intro n acc hacc c hc
    simp only [natDecimalAux] at hc
    by_cases hn : n < 10
    · rw [if_pos hn] at hc
      rcases List.mem_cons.mp hc with hc | hc
      · subst hc; exact digitChar_isDigit hn
      · exact hacc c hc
    · rw [if_neg hn] at hc
      refine ih (n / 10) (Nat.digitChar (n % 10) :: acc) ?_ c hc
      intro d hd
      rcases List.mem_cons.mp hd with hd | hd
      · subst hd; exact digitChar_isDigit (Nat.mod_lt n (by omega))
      · exact hacc d hd

theorem natDecimal_digits (n : Nat) : ∀ c ∈ natDecimal n, c.isDigit = true :=
  natDecimalAux_digits (n + 1) n [] (by intro c hc; cases hc)

theorem natDecimalAux_ne_nil :
    ∀ (fuel n : Nat) (acc : List Char), acc ≠ [] → natDecimalAux fuel n acc ≠ [] := by
  intro fuel
  induction fuel with
  | zero => intro n acc h; exact h
  | succ m ih =>
    intro n acc h
    simp only [natDecimalAux]
    by_cases hn : n < 10
    · rw [if_pos hn]; simp
    · rw [if_neg hn]; exact ih (n / 10) _ (by simp)

theorem natDecimal_ne_nil (n : Nat) : natDecimal n ≠ [] := by
  unfold natDecimal natDecimalAux
  by_cases hn : n < 10
  · rw [if_pos hn]; simp
  · rw [if_neg hn]; exact natDecimalAux_ne_nil n (n / 10) _ (by simp)

/-- The decimal rendering of a natural number is one numeral: itself. -/
theorem numerals_natDecimal (n : Nat) : numerals (natDecimal n) = [natDecimal n] :=
  numerals_all_digits _ (natDecimal_ne_nil n) (natDecimal_digits n)

/-- A left fold by `min` stays inside the fold's inputs. -/
theorem foldl_min_mem : ∀ (xs : List Nat) (x : Nat), xs.foldl min x ∈ x :: xs := by
  intro xs
  induction xs with
  | nil => intro x; simp
  | cons y ys ih =>
    intro x
    rw [List.foldl_cons]
    rcases List.mem_cons.mp (ih (min x y)) with h | h
    · rw [h]
      rcases min_choice x y with hm | hm <;> rw [hm]
      · exact List.mem_cons_self x (y :: ys)
      · exact List.mem_cons_of_mem x (List.mem_cons_self y ys)
    · exact List.mem_cons_of_mem x (List.mem_cons_of_mem y h)

/-- Python `min` returns a member of its argument. -/
theorem pyMin_mem {l : List Nat} {m : Nat} (h : pyMin l = some m) : m ∈ l := by
  cases l with
  | nil => cases h
  | cons x xs =>
    simp only [pyMin, Option.some.injEq] at h
    rw [← h]
    exact foldl_min_mem xs x

/-- Every character of a joined list comes from the separator or a member. -/
theorem joinSep_mem (sep : List Char) :
    ∀ (ls : List (List Char)) (x : Char), x ∈ joinSep sep ls →
      x ∈ sep ∨ ∃ l ∈ ls, x ∈ l := by
  intro ls
  induction ls with
  | nil => intro x hx; cases hx
  | cons p ps ih =>
    intro x hx
    cases ps with
    | nil =>
      exact Or.inr ⟨p, List.mem_cons_self p [], hx⟩
    | cons q ps' =>
      rw [show joinSep sep (p :: q :: ps') = p ++ sep ++ joinSep sep (q :: ps')
        from rfl] at hx
      rcases List.mem_append.mp hx with hx | hx
      · rcases List.mem_append.mp hx with hx | hx
        · exact Or.inr ⟨p, List.mem_cons_self p _, hx⟩
        · exact Or.inl hx
      · rcases ih x hx with h | ⟨l, hl, hxl⟩
        · exact Or.inl h
        · exact Or.inr ⟨l, List.mem_cons_of_mem p hl, hxl⟩

/-- Subset transfer along the period-joined parts: if every part (with the
trailing period) only produces allowed numerals, so does the joined
summary. -/
theorem joinSep_dot_subset (allowed : List (List Char)) :
    ∀ (parts : List (List Char)),
      (∀ p ∈ parts, ∀ x ∈ numerals (p ++ ['.']), x ∈ allowed) →
      ∀ x ∈ numerals (joinSep ". ".data parts ++ ['.']), x ∈ allowed := by
  intro parts
  induction parts with
  | nil =>
    intro _ x hx
    simp only [joinSep, List.nil_append] at hx
    simp [show numerals ['.'] = [] from rfl] at hx
  | cons p ps ih =>
    intro h x hx
    cases ps with
    | nil =>
      exact h p (List.mem_cons_self p []) x hx
    | cons q ps' =>
      rw [show joinSep ". ".data (p :: q :: ps') =
        p ++ ". ".data ++ joinSep ". ".data (q :: ps') from rfl] at hx
      rw [show (p ++ ". ".data ++ joinSep ". ".data (q :: ps')) ++ ['.'] =
        (p ++ ['.']) ++ ' ' :: (joinSep ". ".data (q :: ps') ++ ['.']) from by
          simp] at hx
      rw [numerals_break (by decide) (p ++ ['.'])
        (joinSep ". ".data (q :: ps') ++ ['.'])] at hx
      rcases List.mem_append.mp hx with hx | hx
      · exact h p (List.mem_cons_self p _) x hx
      · exact ih (fun r hr => h r (List.mem_cons_of_mem p hr)) x hx

/-- The numbers present in the input token values, per the spec's data
model: the numerals of each string field (visibility, wind direction /
speed / gust, temperature, dewpoint, altimeter) together with the decimal
renderings of the numeric fields — each cloud layer's `base_ft` (the
three-digit code × 100) and the vertical visibility in feet. -/
def tokenNumerals (t : MetarTokens) : List (List Char) :=
  (match t.vis with | some v => numerals v | none => []) ++
  (match t.wind with
   | some w => numerals w.dir ++ numerals w.spd ++ numerals w.gst
   | none => []) ++
  (t.clouds.map (fun p => natDecimal (digitsToNat p.2 * 100))) ++
  (match t.vv with | some n => [natDecimal n] | none => []) ++
  (match t.temp with | some x => numerals x | none => []) ++
  (match t.dew with | some x => numerals x | none => []) ++
  (match t.alt with | some a => numerals a | none => [])

/-- Well-formedness of a token record, as guaranteed by `tokenize_metar`:
the visibility and altimeter strings end in a non-numeric character
(`...SM`, `...inHg`), and weather codes and cloud coverages contain no
digits. -/
def wfTokens (t : MetarTokens) : Bool :=
  (match t.vis with | some v => endsSafe v | none => true) &&
  (match t.alt with | some a => endsSafe a | none => true) &&
  t.wx.all (fun w => w.all (fun c => !c.isDigit)) &&
  t.clouds.all (fun p => p.1.all (fun c => !c.isDigit))

theorem tn_vis {t : MetarTokens} {v : List Char} (h : t.vis = some v) :
    ∀ x ∈ numerals v, x ∈ tokenNumerals t := by
  intro x hx
  simp only [tokenNumerals, h, List.mem_append]
  tauto

theorem tn_wind {t : MetarTokens} {w : WindGroups} (h : t.wind = some w) :
    ∀ x, x ∈ numerals w.dir ++ numerals w.spd ++ numerals w.gst →
      x ∈ tokenNumerals t := by
  intro x hx
  simp only [List.mem_append] at hx
  simp only [tokenNumerals, h, List.mem_append]
  tauto

theorem tn_clouds {t : MetarTokens} :
    ∀ x ∈ t.clouds.map (fun p => natDecimal (digitsToNat p.2 * 100)),
      x ∈ tokenNumerals t := by
  intro x hx
  simp only [tokenNumerals, List.mem_append]
  tauto

theorem tn_vv {t : MetarTokens} {n : Nat} (h : t.vv = some n) :
    natDecimal n ∈ tokenNumerals t := by
  simp only [tokenNumerals, h, List.mem_append]
  tauto

theorem tn_temp {t : MetarTokens} {x : List Char} (h : t.temp = some x) :
    ∀ y ∈ numerals x, y ∈ tokenNumerals t := by
  intro y hy
  simp only [tokenNumerals, h, List.mem_append]
  tauto

theorem tn_dew {t : MetarTokens} {x : List Char} (h : t.dew = some x) :
    ∀ y ∈ numerals x, y ∈ tokenNumerals t := by
  intro y hy
  simp only [tokenNumerals, h, List.mem_append]
  tauto

theorem tn_alt {t : MetarTokens} {a : List Char} (h : t.alt = some a) :
    ∀ y ∈ numerals a, y ∈ tokenNumerals t := by
  intro y hy
  simp only [tokenNumerals, h, List.mem_append]
  tauto

/-- A derived ceiling value is a token number: the vertical visibility or
one of the cloud bases. -/
theorem summaryCeil_mem {t : MetarTokens} {c : Nat} (h : summaryCeil t = some c) :
    natDecimal c ∈ tokenNumerals t := by
  simp only [summaryCeil] at h
  split at h
  · have hm := pyMin_mem h
    obtain ⟨p, hp, hpe⟩ := List.mem_map.mp hm
    refine tn_clouds _ (List.mem_map.mpr ⟨p, List.mem_of_mem_filter hp, ?_⟩)
    rw [hpe]
  · exact tn_vv h

theorem numerals_cons_skip {c : Char} (hc : numChar c = false) (b : List Char) :
    numerals (c :: b) = numerals b := by
  have h := numerals_break hc [] b
  simpa using h

/-- The Visibility clause contributes only the visibility's numerals. -/
theorem visPart_numerals (v : List Char) (hv : endsSafe v = true) :
    numerals (("Visibility ".data ++ v) ++ ['.']) = numerals v := by
  rw [List.append_assoc, numerals_pre_elim "Visibility ".data (by decide),
    numerals_append_dot v hv]

/-- The Ceiling clause contributes exactly the rendered ceiling. -/
theorem ceilPart_numerals (c : Nat) :
    numerals (("Ceiling ".data ++ natDecimal c ++ " ft".data) ++ ['.']) =
      [natDecimal c] := by
  simp only [List.append_assoc]
  rw [numerals_pre_elim "Ceiling ".data (by decide),
    numerals_mid_elim " ft".data (by decide), numerals_natDecimal]
  simp [show numerals ['.'] = [] from rfl]

/-- One cloud entry followed by a period renders exactly the base. -/
theorem cloudEntry_dot (cov : List Char) (n : Nat)
    (hcov : ∀ c ∈ cov, c.isDigit = false) :
    numerals ((cov ++ [' '] ++ natDecimal n ++ " ft".data) ++ ['.']) =
      [natDecimal n] := by
  simp only [List.append_assoc, List.singleton_append, List.cons_append,
    List.nil_append]
  rw [numerals_break (by decide) cov, numerals_noDigit cov hcov, List.nil_append,
    numerals_break (by decide) (natDecimal n), numerals_natDecimal]
  simp [show numerals ['f', 't', '.'] = [] from rfl]

/-- One cloud entry on its own renders exactly the base. -/
theorem cloudEntry_plain (cov : List Char) (n : Nat)
    (hcov : ∀ c ∈ cov, c.isDigit = false) :
    numerals (cov ++ [' '] ++ natDecimal n ++ " ft".data) = [natDecimal n] := by
  simp only [List.append_assoc, List.singleton_append, List.cons_append,
    List.nil_append]
  rw [numerals_break (by decide) cov, numerals_noDigit cov hcov, List.nil_append,
    numerals_break (by decide) (natDecimal n), numerals_natDecimal]
  simp [show numerals ['f', 't'] = [] from rfl]

/-- Splitting a comma-joined head entry off the numerals. -/
theorem joinSep_comma_step (E J : List Char) :
    numerals (((E ++ ", ".data) ++ J) ++ ['.']) =
      numerals E ++ numerals (J ++ ['.']) := by
  rw [show (", " : String).data = [','] ++ [' '] from by decide]
  rw [show ((E ++ ([','] ++ [' '])) ++ J) ++ ['.'] =
    E ++ ',' :: (' ' :: (J ++ ['.'])) from by
      simp only [List.append_assoc, List.singleton_append, List.cons_append,
        List.nil_append]]
  rw [numerals_break (by decide) E, numerals_cons_skip (by decide)]

/-- The joined cloud entries contribute only the rendered bases. -/
theorem cloudJoin_numerals :
    ∀ (entries : List (List Char × List Char)),
      (∀ p ∈ entries, ∀ c ∈ p.1, c.isDigit = false) →
      ∀ x ∈ numerals (joinSep ", ".data
        (entries.map (fun p =>
          p.1 ++ [' '] ++ natDecimal (digitsToNat p.2 * 100) ++ " ft".data)) ++ ['.']),
        x ∈ entries.map (fun p => natDecimal (digitsToNat p.2 * 100)) := by
  intro entries
  induction entries with
  | nil =>
    intro _ x hx
    simp [joinSep, show numerals ['.'] = [] from rfl] at hx
  | cons p ps ih =>
    intro h x hx
    cases ps with
    | nil =>
      simp only [List.map, joinSep] at hx
      rw [cloudEntry_dot p.1 _ (h p (List.mem_cons_self p []))] at hx
      rw [List.mem_singleton] at hx
      subst hx
      simp
    | cons q ps' =>
      rw [show joinSep ", ".data ((p :: q :: ps').map (fun p =>
          p.1 ++ [' '] ++ natDecimal (digitsToNat p.2 * 100) ++ " ft".data)) =
        ((p.1 ++ [' '] ++ natDecimal (digitsToNat p.2 * 100) ++ " ft".data) ++
          ", ".data) ++ joinSep ", ".data ((q :: ps').map (fun p =>
            p.1 ++ [' '] ++ natDecimal (digitsToNat p.2 * 100) ++ " ft".data))
        from by simp [joinSep, List.append_assoc]] at hx
      rw [joinSep_comma_step] at hx
      rw [cloudEntry_plain p.1 _ (h p (List.mem_cons_self p _))] at hx
      rcases List.mem_append.mp hx with hx | hx
      · rw [List.mem_singleton] at hx
        subst hx
        simp
      · have := ih (fun r hr => h r (List.mem_cons_of_mem p hr)) x hx
        simpa using List.mem_cons_of_mem
          ((fun p => natDecimal (digitsToNat p.2 * 100)) p) this

/-- The Winds clause contributes only wind numerals. -/
theorem windPart_numerals (w : WindGroups) :
    ∀ x ∈ numerals (("Winds ".data ++ w.dir ++ "° at ".data ++ w.spd ++ " kt".data ++
        (if !w.gst.isEmpty then ", gusting ".data ++ w.gst ++ " kt".data else [])) ++
        ['.']),
      x ∈ numerals w.dir ++ numerals w.spd ++ numerals w.gst := by
  intro x hx
  by_cases hg : w.gst.isEmpty = true
  · simp only [hg, Bool.not_true, Bool.false_eq_true, if_false, List.append_nil] at hx
    simp only [List.append_assoc, List.singleton_append, List.cons_append,
      List.nil_append] at hx
    repeat rw [numerals_cons_skip (by decide)] at hx
    rw [numerals_break (by decide) w.dir] at hx
    repeat rw [numerals_cons_skip (by decide)] at hx
    rw [numerals_break (by decide) w.spd] at hx
    repeat rw [numerals_cons_skip (by decide)] at hx
    rw [show numerals ['.'] = [] from rfl, List.append_nil] at hx
    exact List.mem_append_left _ hx
  · simp only [hg, Bool.not_false, if_true] at hx
    simp only [List.append_assoc, List.singleton_append, List.cons_append,
      List.nil_append] at hx
    repeat rw [numerals_cons_skip (by decide)] at hx
    rw [numerals_break (by decide) w.dir] at hx
    repeat rw [numerals_cons_skip (by decide)] at hx
    rw [numerals_break (by decide) w.spd] at hx
    repeat rw [numerals_cons_skip (by decide)] at hx
    rw [numerals_break (by decide) w.gst] at hx
    repeat rw [numerals_cons_skip (by decide)] at hx
    rw [show numerals ['.'] = [] from rfl, List.append_nil] at hx
    rw [← List.append_assoc] at hx
    exact hx

/-- The Weather clause contributes no numerals at all. -/
theorem wxPart_numerals (wx : List (List Char))
    (h : ∀ w ∈ wx, ∀ c ∈ w, c.isDigit = false) :
    numerals (("Weather ".data ++ joinSep ", ".data wx) ++ ['.']) = [] := by
  apply numerals_noDigit
  intro x hx
  rcases List.mem_append.mp hx with hx | hx
  · rcases List.mem_append.mp hx with hx | hx
    · exact (by decide : ∀ c ∈ ("Weather " : String).data, c.isDigit = false) x hx
    · rcases joinSep_mem _ wx x hx with h' | ⟨l, hl, hxl⟩
      · exact (by decide : ∀ c ∈ (", " : String).data, c.isDigit = false) x h'
      · exact h l hl x hxl
  · rw [List.mem_singleton] at hx
    subst hx
    rfl

/-- The Temp clause contributes only the temperature and dewpoint numerals. -/
theorem tempPart_numerals (a b : List Char) :
    numerals (("Temp ".data ++ a ++ "°C, dew ".data ++ b ++ "°C".data) ++ ['.']) =
      numerals a ++ numerals b := by
  simp only [List.append_assoc, List.singleton_append, List.cons_append,
    List.nil_append]
  repeat rw [numerals_cons_skip (by decide)]
  rw [numerals_break (by decide) a]
  repeat rw [numerals_cons_skip (by decide)]
  rw [numerals_break (by decide) b]
  rw [show numerals ('C' :: ['.']) = [] from rfl, List.append_nil]

/-- The Altimeter clause contributes only the altimeter numerals. -/
theorem altPart_numerals (a : List Char) (ha : endsSafe a = true) :
    numerals (("Altimeter ".data ++ a) ++ ['.']) = numerals a := by
  rw [List.append_assoc, numerals_pre_elim "Altimeter ".data (by decide),
    numerals_append_dot a ha]

/-- The one clause added when the ceiling came out falsy but layers exist. -/
theorem cloudsClause_subset (t : MetarTokens)
    (hcl : ∀ p ∈ t.clouds, ∀ c ∈ p.1, c.isDigit = false)
    (p : List Char) (hp : p ∈ cloudsClause t) :
    ∀ x ∈ numerals (p ++ ['.']), x ∈ tokenNumerals t := by
  unfold cloudsClause at hp
  split at hp
  · rw [List.mem_singleton] at hp
    subst hp
    intro x hx
    rw [List.append_assoc, numerals_pre_elim "Clouds ".data (by decide)] at hx
    exact tn_clouds _ (cloudJoin_numerals t.clouds hcl x hx)
  · cases hp

/-- Every numeral of the deterministic summary of a well-formed token
record is a token number. -/
theorem summary_numerals_subset (t : MetarTokens) (hwf : wfTokens t = true) :
    ∀ x ∈ numerals (deterministic_summary t), x ∈ tokenNumerals t := by
  have t1 := Bool.and_eq_true_iff.mp hwf
  have t2 := Bool.and_eq_true_iff.mp t1.1
  have t3 := Bool.and_eq_true_iff.mp t2.1
  have hcl : ∀ p ∈ t.clouds, ∀ c ∈ p.1, c.isDigit = false := by
    intro p hp c hc
    have := List.all_eq_true.mp t1.2 p hp
    have := List.all_eq_true.mp this c hc
    simpa using this
  have hwxd : ∀ w ∈ t.wx, ∀ c ∈ w, c.isDigit = false := by
    intro w hw c hc
    have := List.all_eq_true.mp t2.2 w hw
    have := List.all_eq_true.mp this c hc
    simpa using this
  unfold deterministic_summary
  apply joinSep_dot_subset
  intro p hp
  simp only [summaryParts] at hp
  rcases List.mem_append.mp hp with hp | hp
  rotate_left
  · -- Altimeter clause
    split at hp
    · rename_i hcode
      cases halt : t.alt with
      | none => rw [halt] at hcode; cases hcode
      | some a =>
        rw [halt, Option.getD_some] at hp
        rw [List.mem_singleton] at hp
        subst hp
        intro x hx
        have hsafe : endsSafe a = true := by
          have := t3.2
          rw [halt] at this
          exact this
        rw [altPart_numerals a hsafe] at hx
        exact tn_alt halt x hx
    · cases hp
  rcases List.mem_append.mp hp with hp | hp
  rotate_left
  · -- Temp clause
    split at hp
    · rename_i hcode
      obtain ⟨hct, hcd⟩ := Bool.and_eq_true_iff.mp hcode
      cases htemp : t.temp with
      | none => rw [htemp] at hct; cases hct
      | some a =>
        cases hdew : t.dew with
        | none => rw [hdew] at hcd; cases hcd
        | some b =>
          rw [htemp, hdew, Option.getD_some, Option.getD_some] at hp
          rw [List.mem_singleton] at hp
          subst hp
          intro x hx
          rw [tempPart_numerals a b] at hx
          rcases List.mem_append.mp hx with hx | hx
          · exact tn_temp htemp x hx
          · exact tn_dew hdew x hx
    · cases hp
  rcases List.mem_append.mp hp with hp | hp
  rotate_left
  · -- Weather clause
    split at hp
    · rw [List.mem_singleton] at hp
      subst hp
      intro x hx
      rw [wxPart_numerals t.wx hwxd] at hx
      cases hx
    · cases hp
  rcases List.mem_append.mp hp with hp | hp
  rotate_left
  · -- Winds clause
    cases hw : t.wind with
    | none => rw [hw] at hp; cases hp
    | some w =>
      rw [hw] at hp
      rw [List.mem_singleton] at hp
      subst hp
      intro x hx
      exact tn_wind hw x (windPart_numerals w x hx)
  rcases List.mem_append.mp hp with hp | hp
  rotate_left
  · -- Ceiling / Clouds clause
    cases hceil : summaryCeil t with
    | none =>
      rw [hceil] at hp
      exact cloudsClause_subset t hcl p hp
    | some c =>
      rw [hceil] at hp
      dsimp only [] at hp
      split at hp
      · rw [List.mem_singleton] at hp
        subst hp
        intro x hx
        rw [ceilPart_numerals c] at hx
        rw [List.mem_singleton] at hx
        subst hx
        exact summaryCeil_mem hceil
      · exact cloudsClause_subset t hcl p hp
  rcases List.mem_append.mp hp with hp | hp
  · -- IFR clause
    split at hp
    · rw [List.mem_singleton] at hp
      subst hp
      intro x hx
      rw [show numerals ("IFR conditions".data ++ ['.']) = [] from by decide] at hx
      cases hx
    · cases hp
  · -- Visibility clause
    split at hp
    · rename_i hcode
      cases hvis : t.vis with
      | none => rw [hvis] at hcode; cases hcode
      | some v =>
        rw [hvis, Option.getD_some] at hp
        rw [List.mem_singleton] at hp
        subst hp
        intro x hx
        have hsafe : endsSafe v = true := by
          have := t3.1
          rw [hvis] at this
          exact this
        rw [visPart_numerals v hsafe] at hx
        exact tn_vis hvis x hx
    · cases hp

/-! ### `tokenize_metar` produces well-formed tokens -/

theorem orElse_eq_some {α : Type} {a b : Option α} {v : α}
    (h : (a <|> b) = some v) : a = some v ∨ b = some v := by
  cases a <;> simp_all

/-- One-step unfolding of the searcher at a non-empty position. -/
theorem reSearch_cons {α : Type} (m : Option Char → List Char → Option α)
    (prev : Option Char) (c : Char) (rest : List Char) :
    reSearch m prev (c :: rest) =
      (match m prev (c :: rest) with
       | some r => some r
       | none => reSearch m (some c) rest) := rfl

/-- A successful search is a successful match at some position. -/
theorem reSearch_some {α : Type} {m : Option Char → List Char → Option α} :
    ∀ (s : List Char) (prev : Option Char) (r : α),
      reSearch m prev s = some r → ∃ p' s', m p' s' = some r := by
  intro s
  induction s with
  | nil =>
    intro prev r h
    exact ⟨prev, [], h⟩
  | cons c cs ih =>
    intro prev r h
    rw [reSearch_cons] at h
    cases hm : m prev (c :: cs) with
    | some r' =>
      rw [hm] at h
      dsimp only [] at h
      exact ⟨prev, c :: cs, by rw [hm]; exact h⟩
    | none =>
      rw [hm] at h
      dsimp only [] at h
      exact ih (some c) r h

theorem endsSafe_SM (x : List Char) : endsSafe (x ++ "SM".data) = true := by
  rw [show x ++ ("SM" : String).data = (x ++ ['S']) ++ ['M'] from by simp,
    endsSafe_concat]
  rfl

/-- The visibility matcher's group ends in `SM`. -/
theorem visTokMatchAt_endsSafe {prev : Option Char} {s : List Char}
    {p : List Char × List Char} (h : visTokMatchAt prev s = some p) :
    endsSafe p.1 = true := by
  unfold visTokMatchAt at h
  split at h
  · split at h
    · rcases orElse_eq_some h with h' | h'
      · split at h'
        · obtain ⟨q, _, hq⟩ := Option.map_eq_some'.mp h'
          rw [← hq]
          exact endsSafe_SM _
        · cases h'
      · obtain ⟨q, _, hq⟩ := Option.map_eq_some'.mp h'
        rw [← hq]
        exact endsSafe_SM _
    · cases h
  · split at h
    · obtain ⟨q, _, hq⟩ := Option.map_eq_some'.mp h
      rw [← hq]
      exact endsSafe_SM _
    · cases h
  · cases h

theorem endsSafe_inHg (x : List Char) : endsSafe (x ++ " inHg".data) = true := by
  rw [show (" inHg" : String).data = " inH".data ++ ['g'] from by decide,
    ← List.append_assoc, endsSafe_concat]
  rfl

/-- The altimeter matcher's rendering ends in `inHg`. -/
theorem altMatchAt_endsSafe {prev : Option Char} {s : List Char}
    {p : List Char × List Char} (h : altMatchAt prev s = some p) :
    endsSafe p.1 = true := by
  unfold altMatchAt at h
  split at h
  · split at h
    · injection h with h'
      rw [← h']
      exact endsSafe_inHg _
    · cases h
  · cases h

/-- Weather codes contain no digits. -/
theorem wxCode_no_digit {r : List Char} {p : List Char × List Char}
    (h : wxCode r = some p) : ∀ c ∈ p.1, c.isDigit = false := by
  unfold wxCode at h
  split at h
  · split at h
    · rename_i code hfind
      split at h
      · injection h with h'
        rw [← h']
        exact (by decide : ∀ code ∈ wxCodes, ∀ c ∈ code, c.isDigit = false) code
          (List.mem_of_find?_eq_some hfind)
      · cases h
    · cases h
  · cases h

/-- A matched weather group contains no digits. -/
theorem wxAfterSign_no_digit {sign r : List Char} {p : List Char × List Char}
    (hsign : ∀ c ∈ sign, c.isDigit = false)
    (h : wxAfterSign sign r = some p) : ∀ c ∈ p.1, c.isDigit = false := by
  unfold wxAfterSign at h
  rcases orElse_eq_some h with h' | h'
  · split at h'
    · obtain ⟨q, hq1, hq2⟩ := Option.map_eq_some'.mp h'
      rw [← hq2]
      intro c hc
      rcases List.mem_append.mp hc with hc | hc
      · rcases List.mem_append.mp hc with hc | hc
        · exact hsign c hc
        · exact (by decide : ∀ c ∈ ("VC" : String).data, c.isDigit = false) c hc
      · exact wxCode_no_digit hq1 c hc
    · cases h'
  · obtain ⟨q, hq1, hq2⟩ := Option.map_eq_some'.mp h'
    rw [← hq2]
    intro c hc
    rcases List.mem_append.mp hc with hc | hc
    · exact hsign c hc
    · exact wxCode_no_digit hq1 c hc

theorem tryWxAt_no_digit {s : List Char} {p : List Char × List Char}
    (h : tryWxAt s = some p) : ∀ c ∈ p.1, c.isDigit = false := by
  unfold tryWxAt at h
  split at h
  · split at h
    · rcases orElse_eq_some h with h' | h'
      · split at h'
        · exact wxAfterSign_no_digit (by decide) h'
        · cases h'
      · rcases orElse_eq_some h' with h'' | h''
        · split at h''
          · exact wxAfterSign_no_digit (by decide) h''
          · cases h''
        · exact wxAfterSign_no_digit (by decide) h''
    · cases h
  · cases h

/-- One-step unfolding of the weather scanner. -/
theorem wxScanFuel_succ (n : Nat) (s : List Char) :
    wxScanFuel (n + 1) s =
      match tryWxAt s with
      | some (g, rest) => g :: wxScanFuel n rest
      | none =>
        match s with
        | [] => []
        | _ :: cs => wxScanFuel n cs := rfl

theorem wxScanFuel_no_digit :
    ∀ (fuel : Nat) (s : List Char), ∀ w ∈ wxScanFuel fuel s, ∀ c ∈ w,
      c.isDigit = false := by
  intro fuel
  induction fuel with
  | zero => intro s w hw; simp [wxScanFuel] at hw
  | succ n ih =>
    intro s w hw
    rw [wxScanFuel_succ] at hw
    cases htc : tryWxAt s with
    | some q =>
      obtain ⟨g, rest⟩ := q
      rw [htc] at hw
      rcases List.mem_cons.mp hw with hw | hw
      · subst hw; exact tryWxAt_no_digit htc
      · exact ih rest w hw
    | none =>
      rw [htc] at hw
      cases s with
      | nil => cases hw
      | cons c cs => exact ih cs w hw

/-- A matched cloud coverage contains no digits. -/
theorem tryCloudAt_cov_no_digit {prev : Option Char} {s : List Char}
    {g : List Char × List Char} {lc : Char} {rest : List Char}
    (h : tryCloudAt prev s = some (g, lc, rest)) : ∀ c ∈ g.1, c.isDigit = false := by
  unfold tryCloudAt at h
  split at h
  · split at h
    · rename_i code hfind
      split at h
      · injection h with h'
        injection h' with ha _
        subst ha
        exact (by decide : ∀ code ∈ cloudCodes, ∀ c ∈ code, c.isDigit = false) code
          (List.mem_of_find?_eq_some hfind)
      · cases h
    · cases h
  · cases h

theorem cloudScanFuel_cov_no_digit :
    ∀ (fuel : Nat) (prev : Option Char) (s : List Char),
      ∀ p ∈ cloudScanFuel fuel prev s, ∀ c ∈ p.1, c.isDigit = false := by
  intro fuel
  induction fuel with
  | zero => intro prev s p hp; simp [cloudScanFuel] at hp
  | succ n ih =>
    intro prev s p hp
    rw [cloudScanFuel_succ] at hp
    cases htc : tryCloudAt prev s with
    | some trip =>
      obtain ⟨g, lastc, rest⟩ := trip
      rw [htc] at hp
      rcases List.mem_cons.mp hp with hp | hp
      · subst hp; exact tryCloudAt_cov_no_digit htc
      · exact ih _ _ p hp
    | none =>
      rw [htc] at hp
      cases s with
      | nil => cases hp
      | cons c cs => exact ih _ _ p hp

/-- Every token record produced by `tokenize_metar` is well-formed. -/
theorem tokenize_metar_wf (raw : Option String) :
    wfTokens (tokenize_metar raw) = true := by
  unfold wfTokens
  rw [Bool.and_eq_true, Bool.and_eq_true, Bool.and_eq_true]
  refine ⟨⟨⟨?_, ?_⟩, ?_⟩, ?_⟩
  · have hv : (tokenize_metar raw).vis =
        (reSearch visTokMatchAt none (pyStrip ((raw.getD "").data))).map Prod.fst := rfl
    rw [hv]
    cases hr : reSearch visTokMatchAt none (pyStrip ((raw.getD "").data)) with
    | none => rfl
    | some p =>
      obtain ⟨p', s', hm⟩ := reSearch_some _ _ _ hr
      exact visTokMatchAt_endsSafe hm
  · have ha : (tokenize_metar raw).alt =
        (reSearch altMatchAt none (pyStrip ((raw.getD "").data))).map Prod.fst := rfl
    rw [ha]
    cases hr : reSearch altMatchAt none (pyStrip ((raw.getD "").data)) with
    | none => rfl
    | some p =>
      obtain ⟨p', s', hm⟩ := reSearch_some _ _ _ hr
      exact altMatchAt_endsSafe hm
  · apply List.all_eq_true.mpr
    intro w hw
    apply List.all_eq_true.mpr
    intro c hc
    have : (tokenize_metar raw).wx =
        wxScanFuel ((pyStrip ((raw.getD "").data)).length + 1)
          (pyStrip ((raw.getD "").data)) := rfl
    rw [this] at hw
    simpa using wxScanFuel_no_digit _ _ w hw c hc
  · apply List.all_eq_true.mpr
    intro p hp
    apply List.all_eq_true.mpr
    intro c hc
    have : (tokenize_metar raw).clouds =
        cloudScanFuel ((pyStrip ((raw.getD "").data)).length + 1) none
          (pyStrip ((raw.getD "").data)) := rfl
    rw [this] at hp
    simpa using cloudScanFuel_cov_no_digit _ _ _ p hp c hc

/-- C7: deterministic_summary never emits a hallucinated number. For every
well-formed token record, every numeric literal (maximal run of digit /
dot / minus / slash characters containing a digit) appearing in the summary
string is among the numbers present in the input token values — the
numerals of the string fields plus the decimal renderings of the cloud
base-in-feet and vertical-visibility values; and every token record the
program can actually produce, i.e. `tokenize_metar raw` for any raw input,
is well-formed. -/
theorem C7_summary_no_hallucination :
    (∀ t : MetarTokens, wfTokens t = true →
      ∀ x ∈ numerals (deterministic_summary t), x ∈ tokenNumerals t) ∧
    (∀ raw : Option String, wfTokens (tokenize_metar raw) = true) :=
  ⟨summary_numerals_subset, tokenize_metar_wf⟩

/-- Witness for C7 at a concrete METAR: the tokenized record is
well-formed and the theorem yields the no-hallucination property for its
summary. -/
theorem C7_witness :
    wfTokens (tokenize_metar
      (some "KTUS 261152Z 09015G25KT 10SM TS SCT030 BKN060 28/22 A2992")) = true ∧
    ∀ x ∈ numerals (deterministic_summary (tokenize_metar
        (some "KTUS 261152Z 09015G25KT 10SM TS SCT030 BKN060 28/22 A2992"))),
      x ∈ tokenNumerals (tokenize_metar
        (some "KTUS 261152Z 09015G25KT 10SM TS SCT030 BKN060 28/22 A2992")) :=
  ⟨by decide, C7_summary_no_hallucination.1 _ (by decide)⟩

end Aerolish
